import Mathlib

/-
  Verification development for the tor_guardsim repository (prop-259 style
  entry-guard selection).  The definitions below are a shallow embedding of
  src/lib/proposal.py (ChooseGuardAlgorithm and its four state objects),
  src/lib/guard.py (Guard), src/lib/client.py (ClientParams) and
  src/lib/original_client.py (the legacy driver Client).

  Modelling conventions:
  * Guard objects are mutable and aliased across the many lists of the
    algorithm, so guards live in a heap (GuardId -> Guard) and every list
    holds GuardIds; mutating a guard updates the heap.
  * Python timestamps are integers of simulated seconds, and every number
    the modelled code computes with is an integer, so numbers are modelled
    as Int; the five fractional configuration constants (which no modelled
    code path reads) keep their exact rational values in fields of type
    rational.
  * Python truthiness of an optional timestamp (None and 0 are falsy) is
    modelled by pyTruthy.
  * Randomness (random.choice, tor.choose_node_by_bandwidth_weights) is an
    oracle: a stream of natural numbers consumed one draw at a time; a draw
    r over a pool of length L selects index r % L.
  * Reading a missing attribute raises AttributeError; random.choice of an
    empty sequence raises IndexError.  Fallible code returns Except PyErr.
-/

namespace TorGuardSim

/-- Identity of a guard record in the registry heap. -/
abbrev GuardId := Nat

/-- Python exceptions observable in the modelled code. -/
inductive PyErr where
  | attributeError : PyErr
  | indexError : PyErr
deriving DecidableEq, Repr

/-- Python truthiness of an optional number: None and 0 are falsy. -/
def pyTruthy (o : Option ℤ) : Bool :=
  match o with
  | none => false
  | some v => v != 0

/-- Python 2 comparison a < b over optional numbers: None sorts below every
integer (tor.entry_is_time_to_retry compares a possibly-None lastAttempted
with unreachableSince). -/
def pyLtOpt (a b : Option ℤ) : Bool :=
  match a, b with
  | none, none => false
  | none, some _ => true
  | some _, none => false
  | some x, some y => decide (x < y)

/-- Client-side view of a relay, from src/lib/guard.py (class Guard).
The node-level facts the algorithm reads (node._up, seemsDystopic) are
inlined as fields.  The _bad attribute is not set by guard.py itself; it is
an attribute the proposal algorithm reads and the harness sets, modelled as
a plain field. -/
structure Guard where
  listed : Bool := false
  up : Bool := true
  bad : Bool := false
  dystopic : Bool := false
  madeContact : Bool := false
  canRetry : Bool := false
  markedUp : Bool := false
  markedDown : Bool := false
  isDirectoryCache : Bool := true
  lastTried : Option ℤ := none
  lastAttempted : Option ℤ := none
  unreachableSince : Option ℤ := none
  badSince : Option ℤ := none
  addedAt : Option ℤ := none
deriving DecidableEq, Repr

/-- guard.py Guard.isListed. -/
def Guard.isListed (g : Guard) : Bool := g.listed

/-- guard.py Guard.isUp: returns node.isReallyUp(), the node _up flag. -/
def Guard.isUp (g : Guard) : Bool := g.up

/-- guard.py lines 119-120: the FIRST definition of Guard.isBad
(`return not self._listed`).  In Python a later method definition with the
same name replaces this one, so this definition is shadowed and inert. -/
def Guard.isBadFirstDef (g : Guard) : Bool := !g.listed

/-- guard.py lines 141-142: the SECOND definition of Guard.isBad
(`return self.isListed() or not self.isUp()`), which is the one the class
actually exposes because it shadows the first. -/
def Guard.isBad (g : Guard) : Bool := g.isListed || !g.isUp

/-- guard.py Guard.mark(up). -/
def Guard.mark (g : Guard) (up : Bool) : Guard :=
  if up then { g with markedDown := false, markedUp := true }
  else { g with markedDown := true, markedUp := false }

/-- Configuration object from src/lib/client.py (class ClientParams).
Fields below GUARDS_TRY_TRESHOLD are attributes that proposal.py reads but
ClientParams.__init__ never defines (note the TRESHOLD/THRESHOLD spelling
difference); they exist on an instance only if external code (such as the
test harness) assigns them, hence Option: none models "attribute missing,
lookup raises AttributeError". -/
structure ClientParams where
  TOO_RECENTLY : ℤ := 86400
  RETRY_DELAY : ℤ := 30
  RETRY_MULT : ℤ := 2
  UTOPIC_GUARDS_THRESHOLD : ℚ := 5 / 1000
  DYSTOPIC_GUARDS_THRESHOLD : ℚ := 5 / 1000
  UTOPIC_GUARDLIST_FAILOVER_THRESHOLD : ℚ := 75 / 100
  DYSTOPIC_GUARDLIST_FAILOVER_THRESHOLD : ℚ := 1
  N_PRIMARY_GUARDS : Nat := 3
  PRIORITIZE_BANDWIDTH : Bool := true
  DISJOINT_SETS : Bool := false
  PRIMARY_GUARDS_RETRY_INTERVAL : ℤ := 3
  GUARDS_TRY_TRESHOLD_TIME : ℤ := 120
  GUARDS_TRY_TRESHOLD : ℚ := 3 / 100
  GUARDS_TRY_THRESHOLD : Option ℤ := none
  GUARDS_TRY_THRESHOLD_TIME : Option ℤ := none
  GUARDS_FAILOVER_THRESHOLD : Option ℤ := none
  GUARDS_RETRY_TIME : Option ℤ := none
deriving DecidableEq, Repr

/-- The parameters produced by ClientParams() with default arguments. -/
def defaultClientParams : ClientParams := {}

/-- The registry heap of guard records. -/
abbrev Heap := GuardId → Guard

/-- Pointwise heap update (mutation of one shared Guard object). -/
def updateHeap (h : Heap) (gid : GuardId) (g : Guard) : Heap :=
  fun j => if j = gid then g else h j

/-- The four states of the proposal.py state machine. -/
inductive StateTag where
  | primaryGuards : StateTag
  | tryUtopic : StateTag
  | tryDystopic : StateTag
  | retryOnly : StateTag
deriving DecidableEq, Repr

/-- The mutable state of a ChooseGuardAlgorithm session (proposal.py).
utopicGuards models self._guards, which is the same object as
self._utopicGuards.  dysTurn and dysRemaining model the _turn and
_remaining fields of the StateTryDystopic instance, retryTurn the _turn
field of the StateRetryOnly instance; these live across nextGuard calls.
rands is the oracle stream for the random draws. -/
structure AlgoState where
  params : ClientParams := {}
  guards : Heap := fun _ => {}
  now : ℤ := 0
  usedGuards : List GuardId := []
  primaryGuards : List GuardId := []
  utopicGuards : List GuardId := []
  dystopicGuards : List GuardId := []
  remainingUtopicGuards : List GuardId := []
  remainingDystopicGuards : List GuardId := []
  triedGuards : List GuardId := []
  triedDystopicGuards : List GuardId := []
  state : StateTag := .primaryGuards
  previousState : Option StateTag := none
  lastReturn : Option GuardId := none
  hasFinished : Bool := false
  dysTurn : Int := -1
  dysRemaining : List GuardId := []
  retryTurn : Int := -1
  rands : List Nat := []

/-- proposal.py ChooseGuardAlgorithm.wasNotPossibleToConnect:
`guard._unreachableSince != None` (an explicit None test, not truthiness). -/
def wasNotPossibleToConnect (g : Guard) : Bool :=
  g.unreachableSince.isSome

/-- proposal.py ChooseGuardAlgorithm.markAsUnreachable:
`if not guard._unreachableSince: guard._unreachableSince = simtime.now()`. -/
def markAsUnreachable (now : ℤ) (g : Guard) : Guard :=
  if pyTruthy g.unreachableSince then g
  else { g with unreachableSince := some now }

/-- proposal.py ChooseGuardAlgorithm.markAsUnreachableAndAddToTried.
The Python method receives one of the two tried lists by reference; the
flag dys selects triedDystopicGuards (true) or triedGuards (false), which
are the only two lists ever passed at the call sites. -/
def markAsUnreachableAndAddToTried (s : AlgoState) (gid : GuardId) (dys : Bool) :
    Option GuardId × AlgoState :=
  if wasNotPossibleToConnect (s.guards gid) then
    let s1 := { s with guards := updateHeap s.guards gid (markAsUnreachable s.now (s.guards gid)) }
    let s2 :=
      if dys then
        if gid ∈ s1.triedDystopicGuards then s1
        else { s1 with triedDystopicGuards := s1.triedDystopicGuards ++ [gid] }
      else
        if gid ∈ s1.triedGuards then s1
        else { s1 with triedGuards := s1.triedGuards ++ [gid] }
    (some gid, s2)
  else (none, s)

/-- proposal.py ChooseGuardAlgorithm.markDystopicAsUnreachableAndAddToTriedList. -/
def markDystopicAsUnreachableAndAddToTriedList (s : AlgoState) (gids : List GuardId) : AlgoState :=
  gids.foldl (fun st g => (markAsUnreachableAndAddToTried st g true).2) s

/-- proposal.py ChooseGuardAlgorithm._hasAnyPrimaryGuardBeenTriedIn: true iff
some primary guard has a truthy _lastTried with
`_lastTried + interval * 60 < now`. -/
def hasAnyPrimaryGuardBeenTriedIn (s : AlgoState) (interval : ℤ) : Bool :=
  s.primaryGuards.any (fun gid =>
    pyTruthy (s.guards gid).lastTried &&
    decide ((s.guards gid).lastTried.getD 0 + interval * 60 < s.now))

/-- proposal.py ChooseGuardAlgorithm.markPrimaryGuardsForRetry: sets
_canRetry on every primary guard. -/
def markPrimaryGuardsForRetry (s : AlgoState) : AlgoState :=
  let heap := s.primaryGuards.foldl
    (fun h gid => updateHeap h gid { h gid with canRetry := true }) s.guards
  { s with guards := heap }

/-- proposal.py ChooseGuardAlgorithm.allHaveBeenTried:
`len([g for g in primaryGuards if not g._lastTried]) == 0`. -/
def allHaveBeenTried (s : AlgoState) : Bool :=
  (s.primaryGuards.filter (fun gid => !(pyTruthy (s.guards gid).lastTried))).length == 0

/-- proposal.py returnEachEntryInTurn: if `len(guards) > turn + 1` then
increment turn and return the entry at the new turn, else no entry. -/
def returnEachEntryInTurn (gs : List GuardId) (turn : Int) : Option GuardId × Int :=
  if (gs.length : Int) > turn + 1 then
    (gs.get? (turn + 1).toNat, turn + 1)
  else (none, turn)

/-- proposal.py ChooseGuardAlgorithm.nextByBandwidth, which calls
tor.choose_node_by_bandwidth_weights: a bandwidth-weighted random pick,
modelled as one oracle draw selecting an index of the pool (every modelled
guard has a positive weight, so every index is reachable); None on an empty
pool, as in tor.py. -/
def nextByBandwidth (s : AlgoState) (gs : List GuardId) : Option GuardId × AlgoState :=
  match gs with
  | [] => (none, s)
  | x :: xs =>
    let r := s.rands.headD 0
    (some ((x :: xs).getD (r % (x :: xs).length) x), { s with rands := s.rands.tail })

/-- proposal.py ChooseGuardAlgorithm.giveOneMoreChanceTo specialised to the
call moveOldTriedGuardsToRemainingList (tried = _triedGuards, remaining =
_remainingUtopicGuards).  Reads the missing GUARDS_RETRY_TIME attribute. -/
def moveOldTriedGuardsToRemainingList (s : AlgoState) : Except PyErr AlgoState :=
  match s.params.GUARDS_RETRY_TIME with
  | none => .error .attributeError
  | some rt =>
    let timeWindow := s.now - rt * 60
    let gs := s.triedGuards.filter (fun gid => pyTruthy (s.guards gid).unreachableSince)
    .ok (gs.foldl (fun st gid =>
      if (st.guards gid).unreachableSince.getD 0 < timeWindow then
        { st with
          guards := updateHeap st.guards gid { st.guards gid with canRetry := true },
          remainingUtopicGuards :=
            if gid ∈ st.remainingUtopicGuards then st.remainingUtopicGuards
            else st.remainingUtopicGuards ++ [gid] }
      else st) s)

/-- proposal.py ChooseGuardAlgorithm.giveOneMoreChanceTo specialised to the
call moveOldTriedDystopicGuardsToRemainingList. -/
def moveOldTriedDystopicGuardsToRemainingList (s : AlgoState) : Except PyErr AlgoState :=
  match s.params.GUARDS_RETRY_TIME with
  | none => .error .attributeError
  | some rt =>
    let timeWindow := s.now - rt * 60
    let gs := s.triedDystopicGuards.filter (fun gid => pyTruthy (s.guards gid).unreachableSince)
    .ok (gs.foldl (fun st gid =>
      if (st.guards gid).unreachableSince.getD 0 < timeWindow then
        { st with
          guards := updateHeap st.guards gid { st.guards gid with canRetry := true },
          remainingDystopicGuards :=
            if gid ∈ st.remainingDystopicGuards then st.remainingDystopicGuards
            else st.remainingDystopicGuards ++ [gid] }
      else st) s)

/-- Loop body of proposal.py getFirstByBandwidthAndAddUnreachableTo over the
local copy `guards = list(remaining)`.  The fuel is the length of the local
copy: each iteration removes the chosen entry from the copy, so the zero
fuel case is unreachable. -/
def getFirstAux : Nat → AlgoState → List GuardId → Option GuardId × AlgoState
  | 0, s, _ => (none, s)
  | fuel + 1, s, gs =>
    match gs with
    | [] => (none, s)
    | _ :: _ =>
      match nextByBandwidth s gs with
      | (none, s1) => (none, s1)
      | (some g, s1) =>
        let gs1 := gs.erase g
        match markAsUnreachableAndAddToTried s1 g false with
        | (some _, s2) =>
          getFirstAux fuel
            { s2 with remainingUtopicGuards := s2.remainingUtopicGuards.erase g } gs1
        | (none, s2) => (some g, s2)

/-- proposal.py ChooseGuardAlgorithm.getFirstByBandwidthAndAddUnreachableTo at
its only call site (remaining = _remainingUtopicGuards, tried = _triedGuards). -/
def getFirstByBandwidthAndAddUnreachableTo (s : AlgoState) : Option GuardId × AlgoState :=
  getFirstAux s.remainingUtopicGuards.length s s.remainingUtopicGuards

/-- Loop body of proposal.py removeUnavailableRemainingAndMarkUnreachableAndAddToTried
at its only call site (remaining = _remainingDystopicGuards,
tried = _triedDystopicGuards). -/
def removeUnavailAux : Nat → AlgoState → List GuardId → AlgoState
  | 0, s, _ => s
  | fuel + 1, s, gs =>
    match gs with
    | [] => s
    | _ :: _ =>
      match nextByBandwidth s gs with
      | (none, s1) => s1
      | (some g, s1) =>
        let gs1 := gs.erase g
        match markAsUnreachableAndAddToTried s1 g true with
        | (some _, s2) =>
          removeUnavailAux fuel
            { s2 with remainingDystopicGuards := s2.remainingDystopicGuards.erase g } gs1
        | (none, s2) => removeUnavailAux fuel s2 gs1

/-- proposal.py ChooseGuardAlgorithm.removeUnavailableRemainingDystopicGuards. -/
def removeUnavailableRemainingDystopicGuards (s : AlgoState) : AlgoState :=
  removeUnavailAux s.remainingDystopicGuards.length s s.remainingDystopicGuards

/-- Type of the state-dispatch continuation used by transitionTo. -/
abbrev NextFn := AlgoState → Except PyErr (Option GuardId × AlgoState)

/-- proposal.py ChooseGuardAlgorithm.transitionTo, which the source commits
to transitionImmediatelyTo: record the new state and immediately run its
next method, returning that result. -/
def transitionTo (next : NextFn) (st : StateTag) (s : AlgoState) :
    Except PyErr (Option GuardId × AlgoState) :=
  next { s with state := st }

/-- proposal.py ChooseGuardAlgorithm.checkTriedThreshold.  It reads the
attributes GUARDS_TRY_THRESHOLD_TIME then GUARDS_TRY_THRESHOLD, which a
default ClientParams does not define (it defines GUARDS_TRY_TRESHOLD_TIME
and GUARDS_TRY_TRESHOLD instead), so the lookup raises AttributeError. -/
def checkTriedThreshold (next : NextFn) (s : AlgoState) (guardIds : List GuardId) :
    Except PyErr ((Bool × Option GuardId) × AlgoState) :=
  match s.params.GUARDS_TRY_THRESHOLD_TIME with
  | none => .error .attributeError
  | some tTime =>
    match s.params.GUARDS_TRY_THRESHOLD with
    | none => .error .attributeError
    | some tFrac =>
      let timeWindow := s.now - tTime * 60
      let threshold := tFrac * (s.utopicGuards.length : ℤ)
      let tried := guardIds.filter (fun gid =>
        pyTruthy (s.guards gid).lastTried &&
        decide ((s.guards gid).lastTried.getD 0 > timeWindow))
      if (tried.length : ℤ) > threshold then
        match transitionTo next .retryOnly s with
        | .error e => .error e
        | .ok (r, s1) => .ok ((false, r), s1)
      else .ok ((true, none), s)

/-- proposal.py ChooseGuardAlgorithm.checkFailover.  Reads the missing
GUARDS_FAILOVER_THRESHOLD attribute. -/
def checkFailover (next : NextFn) (s : AlgoState)
    (tried gs : List GuardId) (nextState : StateTag) :
    Except PyErr ((Bool × Option GuardId) × AlgoState) :=
  match s.params.GUARDS_FAILOVER_THRESHOLD with
  | none => .error .attributeError
  | some f =>
    if (tried.length : ℤ) > f * (gs.length : ℤ) then
      match transitionTo next nextState s with
      | .error e => .error e
      | .ok (r, s1) => .ok ((false, r), s1)
    else .ok ((true, none), s)

/-- proposal.py checkTriedDystopicFailoverAndMarkAllAsUnreachable: run the
dystopic failover check (transitioning to RETRY_ONLY on failure), and on
failure mark every guard in primaryGuards, triedGuards and
triedDystopicGuards unreachable, after the transition has already run. -/
def checkTriedDystopicFailoverAndMarkAllAsUnreachable (next : NextFn) (s : AlgoState) :
    Except PyErr ((Bool × Option GuardId) × AlgoState) :=
  match checkFailover next s s.triedDystopicGuards s.dystopicGuards .retryOnly with
  | .error e => .error e
  | .ok ((ok, ft), s1) =>
    if ok then .ok ((true, none), s1)
    else
      let ids := s1.primaryGuards ++ s1.triedGuards ++ s1.triedDystopicGuards
      let heap := ids.foldl
        (fun h gid => updateHeap h gid (markAsUnreachable s1.now (h gid))) s1.guards
      .ok ((false, ft), { s1 with guards := heap })

/-- proposal.py ChooseGuardAlgorithm.transitionToPreviousStateOrTryUtopic. -/
def transitionToPreviousStateOrTryUtopic (next : NextFn) (s : AlgoState) :
    Except PyErr (Option GuardId × AlgoState) :=
  match s.previousState with
  | some p => transitionTo next p s
  | none => transitionTo next .tryUtopic s

/-- The guard loop of StatePrimaryGuards.next:
`for g in primaryGuards: if canRetry(g) or not markAsUnreachableAndAddToTried(g, tried): return g`. -/
def statePrimaryGuardsLoop : AlgoState → List GuardId → Option GuardId × AlgoState
  | s, [] => (none, s)
  | s, gid :: rest =>
    if (s.guards gid).canRetry then (some gid, s)
    else
      match markAsUnreachableAndAddToTried s gid false with
      | (some _, s1) => statePrimaryGuardsLoop s1 rest
      | (none, s1) => (some gid, s1)

/-- proposal.py StatePrimaryGuards.next. -/
def statePrimaryGuardsNext (next : NextFn) (s : AlgoState) :
    Except PyErr (Option GuardId × AlgoState) :=
  match statePrimaryGuardsLoop s s.primaryGuards with
  | (some g, s1) => .ok (some g, s1)
  | (none, s1) =>
    match checkTriedThreshold next s1 s1.triedGuards with
    | .error e => .error e
    | .ok ((ok, ft), s2) =>
      if !ok then .ok (ft, s2)
      else if allHaveBeenTried s2 then
        transitionToPreviousStateOrTryUtopic next s2
      else .ok (none, s2)

/-- The used-guards loop of StateTryUtopic.next:
`for g in guards: if not markAsUnreachableAndAddToTried(g, tried): return g`. -/
def tryUtopicUsedLoop : AlgoState → List GuardId → Option GuardId × AlgoState
  | s, [] => (none, s)
  | s, gid :: rest =>
    match markAsUnreachableAndAddToTried s gid false with
    | (some _, s1) => tryUtopicUsedLoop s1 rest
    | (none, s1) => (some gid, s1)

/-- proposal.py StateTryUtopic.next. -/
def stateTryUtopicNext (next : NextFn) (s : AlgoState) :
    Except PyErr (Option GuardId × AlgoState) :=
  match moveOldTriedGuardsToRemainingList s with
  | .error e => .error e
  | .ok s0 =>
    let guardsL := s0.usedGuards.filter (fun g => decide (g ∉ s0.primaryGuards))
    match tryUtopicUsedLoop s0 guardsL with
    | (some g, s1) => .ok (some g, s1)
    | (none, s1) =>
      match checkTriedThreshold next s1 s1.triedGuards with
      | .error e => .error e
      | .ok ((ok1, ft1), s2) =>
        if !ok1 then .ok (ft1, s2)
        else
          match checkFailover next s2 s2.triedGuards s2.utopicGuards .tryDystopic with
          | .error e => .error e
          | .ok ((ok2, ft2), s3) =>
            if !ok2 then .ok (ft2, s3)
            else
              match getFirstByBandwidthAndAddUnreachableTo s3 with
              | (some g, s4) => .ok (some g, s4)
              | (none, s4) =>
                match checkTriedThreshold next s4 s4.triedGuards with
                | .error e => .error e
                | .ok ((ok3, ft3), s5) =>
                  if !ok3 then .ok (ft3, s5)
                  else
                    match checkFailover next s5 s5.triedGuards s5.utopicGuards .tryDystopic with
                    | .error e => .error e
                    | .ok ((ok4, ft4), s6) =>
                      if !ok4 then .ok (ft4, s6)
                      else .ok (none, s6)

/-- proposal.py StateTryDystopic.next. -/
def stateTryDystopicNext (next : NextFn) (s : AlgoState) :
    Except PyErr (Option GuardId × AlgoState) :=
  match moveOldTriedDystopicGuardsToRemainingList s with
  | .error e => .error e
  | .ok s0 =>
    let distopicGuards := s0.usedGuards.filter (fun gid => (s0.guards gid).dystopic)
    let guardsL := distopicGuards.filter (fun g => decide (g ∉ s0.primaryGuards))
    let (lr, turn1) := returnEachEntryInTurn guardsL s0.dysTurn
    let s1 := { s0 with lastReturn := lr, dysTurn := turn1 }
    let s2 := markDystopicAsUnreachableAndAddToTriedList s1 guardsL
    match checkTriedThreshold next s2 (s2.triedGuards ++ s2.triedDystopicGuards) with
    | .error e => .error e
    | .ok ((ok1, ft1), s3) =>
      if !ok1 then .ok (ft1, s3)
      else
        match checkTriedDystopicFailoverAndMarkAllAsUnreachable next s3 with
        | .error e => .error e
        | .ok ((ok2, ft2), s4) =>
          if !ok2 then .ok (ft2, s4)
          else if s4.lastReturn.isSome then .ok (none, s4)
          else
            let s5 := if s4.dysRemaining.isEmpty
              then { s4 with dysRemaining := s4.remainingDystopicGuards } else s4
            let s6 :=
              if s5.dysRemaining.length > 0 then
                match nextByBandwidth s5 s5.dysRemaining with
                | (some g, sA) =>
                  { sA with dysRemaining := sA.dysRemaining.erase g, lastReturn := some g }
                | (none, sA) => sA
              else s5
            let s7 := removeUnavailableRemainingDystopicGuards s6
            match checkTriedThreshold next s7 (s7.triedGuards ++ s7.triedDystopicGuards) with
            | .error e => .error e
            | .ok ((ok3, ft3), s8) =>
              if !ok3 then .ok (ft3, s8)
              else
                match checkTriedDystopicFailoverAndMarkAllAsUnreachable next s8 with
                | .error e => .error e
                | .ok ((ok4, ft4), s9) =>
                  if !ok4 then .ok (ft4, s9)
                  else .ok (none, s9)

/-- Comparison key for the RetryOnly sort: Python 2 sorts None below any
number. -/
def keyLE (a b : Option ℤ) : Bool :=
  match a, b with
  | none, _ => true
  | some _, none => false
  | some x, some y => decide (x ≤ y)

/-- Stable insertion used to model the (stable) Python list sort keyed on
_lastTried. -/
def insertByLastTried (heap : Heap) (gid : GuardId) : List GuardId → List GuardId
  | [] => [gid]
  | h :: t =>
    if keyLE (heap gid).lastTried (heap h).lastTried then gid :: h :: t
    else h :: insertByLastTried heap gid t

/-- Stable sort of guard ids by ascending _lastTried, as in
`guards.sort(key=lambda g: g._lastTried)`. -/
def sortByLastTried (heap : Heap) (l : List GuardId) : List GuardId :=
  l.foldr (insertByLastTried heap) []

/-- proposal.py StateRetryOnly.next: sort the two tried lists together by
_lastTried, store the next entry in turn in _lastReturn, return None. -/
def stateRetryOnlyNext (s : AlgoState) : Option GuardId × AlgoState :=
  let guardsL := sortByLastTried s.guards (s.triedGuards ++ s.triedDystopicGuards)
  let (lr, t1) := returnEachEntryInTurn guardsL s.retryTurn
  (none, { s with lastReturn := lr, retryTurn := t1 })

/-- Dispatch self._state.next(self).  The fuel bounds the chain of immediate
transitions; any chain the source can produce strictly descends
primaryGuards > tryUtopic > tryDystopic > retryOnly (previousState is never
the primary state), so a fuel of 4 is never exhausted on reachable states
and the fuel-zero branch is dead code. -/
def stateNext : Nat → AlgoState → Except PyErr (Option GuardId × AlgoState)
  | 0, s => .ok (none, s)
  | fuel + 1, s =>
    match s.state with
    | .primaryGuards => statePrimaryGuardsNext (stateNext fuel) s
    | .tryUtopic => stateTryUtopicNext (stateNext fuel) s
    | .tryDystopic => stateTryDystopicNext (stateNext fuel) s
    | .retryOnly => .ok (stateRetryOnlyNext s)

/-- proposal.py ChooseGuardAlgorithm.nextGuard.  On the preemption branch the
transition result is returned directly; otherwise _lastReturn is cleared,
the current state is run, and `g or self._lastReturn` is returned. -/
def nextGuard (fuel : Nat) (s : AlgoState) : Except PyErr (Option GuardId × AlgoState) :=
  if hasAnyPrimaryGuardBeenTriedIn s s.params.PRIMARY_GUARDS_RETRY_INTERVAL
      && !(s.state == .primaryGuards) then
    let s1 := { markPrimaryGuardsForRetry s with previousState := some s.state }
    transitionTo (stateNext fuel) .primaryGuards s1
  else
    match stateNext fuel { s with lastReturn := none } with
    | .error e => .error e
    | .ok (g, s2) =>
      .ok (match g with | some x => some x | none => s2.lastReturn, s2)

/-- proposal.py ChooseGuardAlgorithm.end (end is a reserved word in Lean):
set _hasFinished and append the guard to _usedGuards unless already present. -/
def algoEnd (s : AlgoState) (gid : GuardId) : AlgoState :=
  { s with hasFinished := true,
           usedGuards := if gid ∈ s.usedGuards then s.usedGuards else s.usedGuards ++ [gid] }

/-- First-occurrence deduplication relative to an already-seen list; used to
model the conversion of a Python list into a set (the order a Python set
iterates in is unspecified, so we fix the first-occurrence order) and to
describe the scan of _nextPrimaryGuard. -/
def dedupFrom (seen : List GuardId) : List GuardId → List GuardId
  | [] => []
  | g :: t => if g ∈ seen then dedupFrom seen t else g :: dedupFrom (g :: seen) t

/-- Conversion of a list of guards to a Python set, fixed at
first-occurrence iteration order. -/
def pySet (l : List GuardId) : List GuardId := dedupFrom [] l

/-- proposal.py ChooseGuardAlgorithm.filterGuards for the default
selectDirGuards=False (the True branch references the undefined names
liveGuards and g_isDirectoryCache and would raise NameError):
drop the excluded nodes, then make a set. -/
def filterGuards (gs : List GuardId) (excludeNodes : List GuardId) : List GuardId :=
  pySet (gs.filter (fun g => decide (g ∉ excludeNodes)))

/-- The scan of proposal.py _nextPrimaryGuard over the shared usedGuards
copy: pop entries until one is found that is neither already a primary
guard nor bad; none if the list is exhausted. -/
def popFirstGood (heap : Heap) (acc : List GuardId) : List GuardId → Option (GuardId × List GuardId)
  | [] => none
  | g :: rest =>
    if g ∉ acc ∧ (heap g).bad = false then some (g, rest)
    else popFirstGood heap acc rest

/-- Python random.choice over the remaining-utopic list: IndexError on an
empty sequence, otherwise one oracle draw selects the index. -/
def randomChoice (remaining : List GuardId) (rands : List Nat) :
    Except PyErr (GuardId × List Nat) :=
  match remaining with
  | [] => .error .indexError
  | x :: xs =>
    .ok ((x :: xs).get ⟨rands.headD 0 % (x :: xs).length, Nat.mod_lt _ (by simp)⟩,
         rands.tail)

/-- proposal.py ChooseGuardAlgorithm._nextPrimaryGuard.  When the used list
is exhausted (either empty on entry, or fully popped during the scan) the
candidate is random.choice(remainingUtopic), which checks neither _bad nor
membership in primaryGuards and does not remove its pick from remaining. -/
def nextPrimaryGuard (heap : Heap) (used remaining acc : List GuardId) (rands : List Nat) :
    Except PyErr (GuardId × List GuardId × List Nat) :=
  match used with
  | [] =>
    match randomChoice remaining rands with
    | .error e => .error e
    | .ok (g, r) => .ok (g, [], r)
  | _ :: _ =>
    match popFirstGood heap acc used with
    | some (g, rest) => .ok (g, rest, rands)
    | none =>
      match randomChoice remaining rands with
      | .error e => .error e
      | .ok (g, r) => .ok (g, [], r)

/-- The `while len(primaryGuards) < nPrimaryGuards` loop of proposal.py
_findPrimaryGuards, counting the remaining slots.  Every iteration appends
exactly one guard, because _nextPrimaryGuard either raises or returns a
guard object (its `if not g: continue` branch is unreachable). -/
def findPrimaryGuardsAux (heap : Heap) (remaining : List GuardId) :
    Nat → List GuardId → List Nat → List GuardId → Except PyErr (List GuardId × List Nat)
  | 0, _, rands, acc => .ok (acc, rands)
  | slots + 1, used, rands, acc =>
    match nextPrimaryGuard heap used remaining acc rands with
    | .error e => .error e
    | .ok (g, used1, rands1) =>
      findPrimaryGuardsAux heap remaining slots used1 rands1 (acc ++ [g])

/-- proposal.py ChooseGuardAlgorithm._findPrimaryGuards starting from the
empty _primaryGuards list of a fresh session. -/
def findPrimaryGuards (heap : Heap) (used remaining : List GuardId) (n : Nat)
    (rands : List Nat) : Except PyErr (List GuardId × List Nat) :=
  findPrimaryGuardsAux heap remaining n used rands []

/-- proposal.py ChooseGuardAlgorithm.start with selectDirGuards=False:
build the consensus sets, the remaining sets, reset the tried lists, enter
STATE_PRIMARY_GUARDS and build the primary guard list. -/
def start (params : ClientParams) (heap : Heap) (now : ℤ) (rands : List Nat)
    (usedGuards excludeNodes : List GuardId) (nPrimaryGuards : Nat)
    (guardsInConsensus dystopicGuardsInConsensus : List GuardId) :
    Except PyErr AlgoState :=
  let guards := filterGuards guardsInConsensus excludeNodes
  let dystopic := filterGuards dystopicGuardsInConsensus excludeNodes
  let remainingUtopic := guards.filter (fun g => decide (g ∉ usedGuards))
  let remainingDystopic := dystopic.filter (fun g => decide (g ∉ usedGuards))
  match findPrimaryGuards heap usedGuards remainingUtopic nPrimaryGuards rands with
  | .error e => .error e
  | .ok (primary, rands1) =>
    .ok { params := params, guards := heap, now := now,
          usedGuards := usedGuards, primaryGuards := primary,
          utopicGuards := guards, dystopicGuards := dystopic,
          remainingUtopicGuards := remainingUtopic,
          remainingDystopicGuards := remainingDystopic,
          triedGuards := [], triedDystopicGuards := [],
          state := .primaryGuards, previousState := none, lastReturn := none,
          hasFinished := false, dysTurn := -1, dysRemaining := [], retryTurn := -1,
          rands := rands1 }

/-- The non-bad entries of the used-guards list, in order. -/
def usedNonBad (heap : Heap) (used : List GuardId) : List GuardId :=
  used.filter (fun g => !(heap g).bad)

/- ------------------------------------------------------------------ -/
/- src/lib/tor.py and src/lib/original_client.py (the legacy driver). -/
/- ------------------------------------------------------------------ -/

/-- tor.py entry_is_time_to_retry.  The retry-period scan over
(6h, 1h), (3d, 4h), (7d, 18h), (TIME_MAX, 36h) is unrolled; the trailing
`return False` fires when unreachableFor exceeds TIME_MAX = 0x7fffffff.
The subtractions are reached only with unreachableSince truthy and
lastAttempted not below it (the earlier pyLtOpt test), so getD 0 is inert. -/
def entry_is_time_to_retry (g : Guard) (time : ℤ) : Bool :=
  if pyLtOpt g.lastAttempted g.unreachableSince then true
  else
    let unreachableFor := time - g.unreachableSince.getD 0
    let la := g.lastAttempted.getD 0
    if unreachableFor ≤ 6 * 60 * 60 then decide (time > la + 60 * 60)
    else if unreachableFor ≤ 3 * 24 * 60 * 60 then decide (time > la + 4 * 60 * 60)
    else if unreachableFor ≤ 7 * 24 * 60 * 60 then decide (time > la + 18 * 60 * 60)
    else if unreachableFor ≤ (2147483647 : ℤ) then decide (time > la + 36 * 60 * 60)
    else false

/-- tor.py entry_is_live. -/
def entry_is_live (g : Guard) (now : ℤ) : Bool :=
  if pyTruthy g.badSince then false
  else if !g.canRetry && pyTruthy g.unreachableSince && !entry_is_time_to_retry g now then false
  else if !g.listed then false
  else true

/-- The state of an original_client.Client: _GUARD_LIST, the consensus
list _ALL_GUARDS, the shared guard heap and the simulated clock.  probes is
the oracle stream of connection outcomes delivered by net.probe_node_is_up
(the network layer and its decorators are outside the modelled core).
chooseRands feeds the random picks of entry-guard selection
(tor.choose_node_by_bandwidth_weights and random.choice): a draw r over a
pool of length L selects index r % L.  addedRands feeds the random
_addedAt stamp written by addAnEntryGuard. -/
structure OClientState where
  guards : Heap := fun _ => {}
  guardList : List GuardId := []
  allGuards : List GuardId := []
  now : ℤ := 0
  probes : List Bool := []
  chooseRands : List Nat := []
  addedRands : List Nat := []

/-- original_client.Client.markGuard: guard.mark(up). -/
def oMarkGuard (s : OClientState) (gid : GuardId) (up : Bool) : OClientState :=
  { s with guards := updateHeap s.guards gid ((s.guards gid).mark up) }

/-- original_client.Client.probeGuard: take the next probe outcome from the
oracle and mark the guard accordingly (stats are out of scope). -/
def probeGuard (s : OClientState) (gid : GuardId) : Bool × OClientState :=
  let up := s.probes.headD false
  (up, oMarkGuard { s with probes := s.probes.tail } gid up)

/-- original_client.Client.connectToGuard: probe, then advance simulated
time by one second. -/
def connectToGuard (s : OClientState) (gid : GuardId) : Bool × OClientState :=
  match probeGuard s gid with
  | (up, s1) => (up, { s1 with now := s1.now + 1 })

/-- The loop of original_client.Client.markAllBeforeThisForRetry: walk
_GUARD_LIST up to the given guard, setting _canRetry on every earlier
contacted guard while the given guard is live and unreachable. -/
def markAllBeforeAux (gid : GuardId) : OClientState → List GuardId → Bool → Bool × OClientState
  | s, [], refuse => (refuse, s)
  | s, g :: rest, refuse =>
    if g == gid then (refuse, s)
    else if (s.guards g).madeContact && entry_is_live (s.guards gid) s.now
        && pyTruthy (s.guards gid).unreachableSince then
      markAllBeforeAux gid
        { s with guards := updateHeap s.guards g { s.guards g with canRetry := true } }
        rest true
    else markAllBeforeAux gid s rest refuse

/-- original_client.Client.markAllBeforeThisForRetry. -/
def markAllBeforeThisForRetry (s : OClientState) (gid : GuardId) : Bool × OClientState :=
  markAllBeforeAux gid s s.guardList false

/-- original_client.Client.entryGuardRegisterConnectStatus.  Returns true
iff previous guards will be retried later.  On a failure of a guard that
never made contact, the guard is dropped from _GUARD_LIST (and nothing
else happens to its record). -/
def entryGuardRegisterConnectStatus (s : OClientState) (gid : GuardId) (succeeded : Bool) :
    Bool × OClientState :=
  if gid ∉ s.guardList then (false, s)
  else
    let now := s.now
    if succeeded then
      let s1 :=
        if pyTruthy (s.guards gid).unreachableSince then
          let g1 := { s.guards gid with canRetry := false, unreachableSince := none, lastAttempted := some now }
          { s with guards := updateHeap s.guards gid g1 }
        else s
      if !(s1.guards gid).madeContact then
        let g2 := { s1.guards gid with madeContact := true }
        markAllBeforeThisForRetry { s1 with guards := updateHeap s1.guards gid g2 } gid
      else (false, s1)
    else
      if !(s.guards gid).madeContact then
        (false, { s with guardList := s.guardList.filter (fun g => g != gid) })
      else if !(pyTruthy (s.guards gid).unreachableSince) then
        let g3 := { s.guards gid with unreachableSince := some now, lastAttempted := some now, canRetry := false }
        (false, { s with guards := updateHeap s.guards gid g3 })
      else
        let g4 := { s.guards gid with canRetry := false, lastAttempted := some now }
        (false, { s with guards := updateHeap s.guards gid g4 })

/-- original_client.Client._BUILD_CIRCUIT_TIMEOUT. -/
def BUILD_CIRCUIT_TIMEOUT : Nat := 30

/-- Outcome of original_client.Client.buildCircuit: a circuit through a
guard, or the False returned after the timeout. -/
inductive BCResult where
  | circuit : GuardId → BCResult
  | timeout : BCResult
deriving DecidableEq, Repr

/-- original_client.Client.numLiveEntryGuards, specialised to
forDirectory=False — the only value the call chain of buildCircuit passes
(chooseRandomGuard = chooseRandomEntryImpl(False), and every inner call
forwards it), so the `forDirectory and not _isDirectoryCache` part of the
filter is vacuous: the count of live guards of the guard list. -/
def numLiveEntryGuards (s : OClientState) : Nat :=
  (s.guardList.filter (fun g => entry_is_live (s.guards g) s.now)).length

/-- original_client.Client.chooseGoodEntryServer, which calls
tor.choose_node_by_bandwidth_weights over the consensus guards not already
in the guard list.  On an empty pool tor.py returns None; on a non-empty
pool every guard carries a positive weight (wgb*wg*bw + 0.5 > 0), so some
element is always returned and every element is reachable; which one is
drawn from the chooseRands oracle. -/
def chooseGoodEntryServer (s : OClientState) : Option GuardId × OClientState :=
  match s.allGuards.filter (fun g => decide (g ∉ s.guardList)) with
  | [] => (none, s)
  | x :: xs =>
    (some ((x :: xs).get ⟨s.chooseRands.headD 0 % (x :: xs).length, Nat.mod_lt _ (by simp)⟩),
     { s with chooseRands := s.chooseRands.tail })

/-- original_client.Client.addAnEntryGuard, specialised to
forDirectory=False: choose a good entry server, refuse a guard already in
the list, otherwise APPEND it to _GUARD_LIST and stamp its _addedAt with
random.randint(now - 3600*24*30, now - 1), modelled as
now - 1 - (draw % (3600*24*30)) — exactly the support of the source draw. -/
def addAnEntryGuard (s : OClientState) : Option GuardId × OClientState :=
  match chooseGoodEntryServer s with
  | (none, s1) => (none, s1)
  | (some g, s1) =>
    if g ∈ s1.guardList then (none, s1)
    else
      (some g,
       { s1 with
         guardList := s1.guardList ++ [g],
         guards := updateHeap s1.guards g
           { s1.guards g with
             addedAt := some (s1.now - 1 - ((s1.addedRands.headD 0 % (3600 * 24 * 30) : Nat) : ℤ)) },
         addedRands := s1.addedRands.tail })

/-- The `while numLiveEntryGuards < numNeeded: if not addAnEntryGuard:
break` loop of original_client.Client.pickEntryGuards, specialised to
forDirectory=False (numNeeded = decideNumGuards(False) = 1).  Every
successful add moves one guard from the candidate pool into the guard
list, so the pool size bounds the iterations and the fuel-zero branch is
dead for the fuel pickEntryGuards supplies. -/
def pickEntryGuardsAux : Nat → OClientState → OClientState
  | 0, s => s
  | fuel + 1, s =>
    if numLiveEntryGuards s < 1 then
      match addAnEntryGuard s with
      | (none, s1) => s1
      | (some _, s1) => pickEntryGuardsAux fuel s1
    else s

/-- original_client.Client.pickEntryGuards, forDirectory=False. -/
def pickEntryGuards (s : OClientState) : OClientState :=
  pickEntryGuardsAux (s.allGuards.length + 1) s

/-- The loop of original_client.Client.populateLiveEntryGuards, specialised
to forDirectory=False (the isDirectoryCache skip is vacuous and
numNeeded = 1): collect the live guards of the guard list in order,
stopping with True at the first never-contacted live guard or once
numNeeded have been collected. -/
def populateLiveAux (s : OClientState) : List GuardId → List GuardId → List GuardId × Bool
  | [], acc => (acc, false)
  | g :: rest, acc =>
    if !entry_is_live (s.guards g) s.now then populateLiveAux s rest acc
    else
      if !(s.guards g).madeContact then (acc ++ [g], true)
      else if 1 ≤ (acc ++ [g]).length then (acc ++ [g], true)
      else populateLiveAux s rest (acc ++ [g])

/-- original_client.Client.populateLiveEntryGuards, forDirectory=False. -/
def populateLiveEntryGuards (s : OClientState) : List GuardId × Bool :=
  populateLiveAux s s.guardList []

/-- original_client.Client.chooseRandomEntryImpl, specialised to
forDirectory=False: refill the guard list, collect the live entry guards,
and pick one by random.choice when allowed; otherwise add one more guard
when fewer than two are live and retry with relaxed constraints.  The
retry is a genuine recursion of the source that diverges whenever the
candidate pool is exhausted and no listed guard is live, so the model
carries fuel and cuts such runs off with none; the random.choice branch can
only see a non-empty list (populateLiveEntryGuards answers True just after
appending), so its IndexError is unreachable. -/
def chooseRandomEntryImpl : Nat → OClientState → Option GuardId × OClientState
  | 0, s => (none, s)
  | cfuel + 1, s =>
    let s1 := pickEntryGuards s
    let pl := populateLiveEntryGuards s1
    if pl.2 then
      match pl.1 with
      | [] => (none, s1)
      | x :: xs =>
        (some ((x :: xs).get ⟨s1.chooseRands.headD 0 % (x :: xs).length, Nat.mod_lt _ (by simp)⟩),
         { s1 with chooseRands := s1.chooseRands.tail })
    else
      let s2 := if pl.1.length < 2 then (addAnEntryGuard s1).2 else s1
      chooseRandomEntryImpl cfuel s2

/-- original_client.Client.chooseRandomGuard = chooseRandomEntryImpl(False). -/
def chooseRandomGuard (cfuel : Nat) (s : OClientState) : Option GuardId × OClientState :=
  chooseRandomEntryImpl cfuel s

/-- The `while tried < self._BUILD_CIRCUIT_TIMEOUT` loop of
original_client.Client.buildCircuit, including the in-loop
chooseRandomGuard call and hence the entry-guard refill that can append to
_GUARD_LIST during the loop.  The final tried counter is returned with the
result, as the source hands it to the statistics callbacks.  The branch
where entryGuardRegisterConnectStatus returns true repeats without
incrementing tried, so the recursion carries explicit fuel; none stands for
a run longer than the fuel, or one whose guard selection diverges (the
source would then never return). -/
def buildCircuitLoop (cfuel : Nat) : Nat → Nat → OClientState → Option ((BCResult × Nat) × OClientState)
  | 0, _, _ => none
  | fuel + 1, tried, s =>
    if tried < BUILD_CIRCUIT_TIMEOUT then
      match chooseRandomGuard cfuel s with
      | (none, _) => none
      | (some g, s1) =>
        let c := connectToGuard s1 g
        let r := entryGuardRegisterConnectStatus c.2 g c.1
        if r.1 then buildCircuitLoop cfuel fuel tried r.2
        else if c.1 then some ((.circuit g, tried), r.2)
        else buildCircuitLoop cfuel fuel (tried + 1) r.2
    else some ((.timeout, tried), s)

/-- original_client.Client.buildCircuit. -/
def buildCircuit (cfuel fuel : Nat) (s : OClientState) : Option ((BCResult × Nat) × OClientState) :=
  buildCircuitLoop cfuel fuel 0 s

/-- Result-and-counter projection of a buildCircuit run. -/
def bcOutcome (x : Option ((BCResult × Nat) × OClientState)) : Option (BCResult × Nat) :=
  x.map Prod.fst

/-- Guard-list projection of a buildCircuit run. -/
def bcGuardList (x : Option ((BCResult × Nat) × OClientState)) : Option (List GuardId) :=
  x.map (fun p => p.2.guardList)

/- ------------------------------------------------------------------ -/
/- Projections of a nextGuard run, for stating facts about closed runs
   (the session state holds a heap function, so whole-state equality is
   avoided in favour of these observations). -/
/- ------------------------------------------------------------------ -/

/-- Yielded guard of a nextGuard run, if it did not raise. -/
def runGuard (x : Except PyErr (Option GuardId × AlgoState)) : Option (Option GuardId) :=
  match x with
  | .ok (g, _) => some g
  | .error _ => none

/-- State tag after a nextGuard run, if it did not raise. -/
def runStateTag (x : Except PyErr (Option GuardId × AlgoState)) : Option StateTag :=
  match x with
  | .ok (_, s) => some s.state
  | .error _ => none

/-- canRetry flag of one guard after a nextGuard run, if it did not raise. -/
def runCanRetry (x : Except PyErr (Option GuardId × AlgoState)) (gid : GuardId) : Option Bool :=
  match x with
  | .ok (_, s) => some (s.guards gid).canRetry
  | .error _ => none

/-- Primary guard list of a started session, if start did not raise. -/
def startedPrimaries (x : Except PyErr AlgoState) : Option (List GuardId) :=
  match x with
  | .ok st => some st.primaryGuards
  | .error _ => none

/- ------------------------------------------------------------------ -/
/- Concrete sessions used by counterexamples and witnesses.            -/
/- ------------------------------------------------------------------ -/

/-- A heap where every guard was last tried at time 10 and is otherwise
fresh. -/
def heapTried10 : Heap := fun _ => { lastTried := some 10 }

/-- Session in TRY_UTOPIC whose sole primary guard 0 went stale: at now=200
its lastTried=10 is more than PRIMARY_GUARDS_RETRY_INTERVAL=3 minutes old. -/
def sPreempt : AlgoState :=
  { guards := heapTried10, now := 200, primaryGuards := [0], utopicGuards := [0],
    state := .tryUtopic }

/-- A heap where every guard was last tried at time 7. -/
def heapTried7 : Heap := fun _ => { lastTried := some 7 }

/-- Session in TRY_DYSTOPIC with stale primaries 3 and 4 at now=600. -/
def sPreemptB : AlgoState :=
  { guards := heapTried7, now := 600, primaryGuards := [3, 4], utopicGuards := [3, 4],
    state := .tryDystopic }

/-- A heap where every guard was last tried at time 5. -/
def heapTried5 : Heap := fun _ => { lastTried := some 5 }

/-- Session in RETRY_ONLY with stale primary 2 at now=1000. -/
def sPreemptC : AlgoState :=
  { guards := heapTried5, now := 1000, primaryGuards := [2], utopicGuards := [2],
    state := .retryOnly }

/-- A heap whose guard 7 carries the bad flag. -/
def heapBad7 : Heap := fun gid => if gid = 7 then { bad := true } else {}

/-- A start call with empty usedGuards whose consensus holds only the bad
guard 7, asking for two primary guards. -/
def startBadRemaining : Except PyErr AlgoState :=
  start defaultClientParams heapBad7 0 [] [] [] 2 [7] []

/-- A heap with only default guards (none bad). -/
def heapPlain : Heap := fun _ => {}

/-- A start call with one used guard 5 and consensus guard 9, asking for
two primaries: the second is drawn from remainingUtopic. -/
def startMixed : Except PyErr AlgoState :=
  start defaultClientParams heapPlain 0 [] [5] [] 2 [9] []

/-- A start call with four used guards and enough of them non-bad. -/
def startUsedPref : Except PyErr AlgoState :=
  start defaultClientParams heapPlain 0 [] [1, 2, 3, 4] [] 3 [9] []

/-- Parameters with the four dynamic attributes assigned, as the test
harness does (the default ClientParams lacks them). -/
def paramsFull : ClientParams :=
  { defaultClientParams with
    GUARDS_TRY_THRESHOLD := some 2
    GUARDS_TRY_THRESHOLD_TIME := some 120
    GUARDS_FAILOVER_THRESHOLD := some 1
    GUARDS_RETRY_TIME := some 20 }

/-- A heap where guard 0 was tried and found unreachable at time 10. -/
def heapFailed0 : Heap :=
  fun gid => if gid = 0 then { lastTried := some 10, unreachableSince := some 10 } else {}

/-- Session in TRY_DYSTOPIC with the dystopic sample exhausted: guard 0 is
in triedDystopicGuards while dystopicGuards is empty, so the dystopic
failover threshold is exceeded on the next call. -/
def sDysExhausted : AlgoState :=
  { params := paramsFull, guards := heapFailed0, now := 50, primaryGuards := [1],
    utopicGuards := [0, 1], triedDystopicGuards := [0],
    state := .tryDystopic, previousState := some .tryUtopic }

/-- A heap where every guard carries the Python timestamp 0 as _lastTried. -/
def heapTried0 : Heap := fun _ => { lastTried := some 0 }

/-- Session in TRY_UTOPIC whose sole primary guard 0 has lastTried = 0 at
now = 200: that timestamp lies more than PRIMARY_GUARDS_RETRY_INTERVAL = 3
minutes in the past, but Python truthiness treats 0 as unset. -/
def sNoPreempt : AlgoState :=
  { params := paramsFull, guards := heapTried0, now := 200, primaryGuards := [0],
    utopicGuards := [0], state := .tryUtopic }

/-- Legacy-client state: guard 2 is in the guard list and never made
contact. -/
def oNeverContacted : OClientState :=
  { guardList := [2, 6] }

/-- A heap whose guard 7 already made contact; every guard is listed and
otherwise fresh. -/
def heapContacted7 : Heap := fun gid =>
  if gid = 7 then { listed := true, madeContact := true } else { listed := true }

/-- Legacy-client state for the timed-out session: an empty guard list, a
consensus carrying the already-contacted guard 7 and the fresh guard 5,
and every probe failing (the empty probe oracle defaults to failure; the
empty chooseRands oracle always picks index 0). -/
def oC9 : OClientState :=
  { guards := heapContacted7, guardList := [], allGuards := [7, 5] }

/-- Session with two used guards, for exercising end. -/
def sUsed12 : AlgoState :=
  { usedGuards := [1, 2] }

/-- Session with default parameters, in PRIMARY_GUARDS with no primary
guard, so nextGuard reaches checkTriedThreshold at once. -/
def sDefaultEmpty : AlgoState := {}

/- ------------------------------------------------------------------ -/
/- Theorems.                                                           -/
/- ------------------------------------------------------------------ -/

/-- C6: the claim states isBad() is true exactly when the guard is not
listed, regardless of whether the node is up.  The effective isBad of
guard.py (its second, shadowing definition) instead returns
`isListed() or not isUp()`: for a listed and up guard it returns true where
the claim demands false, and for an unlisted up guard it returns false
where the claim demands true.  The first (shadowed) definition at lines
119-120 agrees with the claim, showing the duplicate definition is a slip
of the code. -/
theorem c6_isBad_contradicts_notListed :
    Guard.isBad { listed := true, up := true } = true ∧
    ({ listed := true, up := true } : Guard).listed = true ∧
    Guard.isBad { listed := false, up := true } = false ∧
    ({ listed := false, up := true } : Guard).listed = false ∧
    Guard.isBadFirstDef { listed := true, up := true } = false ∧
    Guard.isBadFirstDef { listed := false, up := true } = true := by
  decide

/-- C8: end(g) appends g to usedGuards exactly when g is not already a
member, a second call leaves usedGuards unchanged, the guard is a member
afterwards, and end never introduces a duplicate into a duplicate-free
usedGuards. -/
theorem c8_end_idempotent (s : AlgoState) (gid : GuardId) :
    (gid ∉ s.usedGuards → (algoEnd s gid).usedGuards = s.usedGuards ++ [gid]) ∧
    (gid ∈ s.usedGuards → (algoEnd s gid).usedGuards = s.usedGuards) ∧
    gid ∈ (algoEnd s gid).usedGuards ∧
    (algoEnd (algoEnd s gid) gid).usedGuards = (algoEnd s gid).usedGuards ∧
    (s.usedGuards.Nodup → ((algoEnd s gid).usedGuards).Nodup) := by
  by_cases h : gid ∈ s.usedGuards
  · refine ⟨fun hn => absurd h hn, fun _ => by simp [algoEnd, h], ?_, ?_, ?_⟩
    · simp [algoEnd, h]
    · simp [algoEnd, h]
    · intro hd; simpa [algoEnd, h] using hd
  · refine ⟨fun _ => by simp [algoEnd, h], fun hm => absurd hm h, ?_, ?_, ?_⟩
    · simp [algoEnd, h]
    · have h2 : gid ∈ (algoEnd s gid).usedGuards := by simp [algoEnd, h]
      simp [algoEnd, h, h2]
    · intro hd
      simp [algoEnd, h, List.nodup_append, hd]

/-- C8 witness: a concrete application of c8_end_idempotent. -/
theorem c8_end_witness :
    (5 : GuardId) ∉ sUsed12.usedGuards ∧
    (algoEnd sUsed12 5).usedGuards = sUsed12.usedGuards ++ [5] ∧
    (algoEnd (algoEnd sUsed12 5) 5).usedGuards = (algoEnd sUsed12 5).usedGuards :=
  ⟨by decide, (c8_end_idempotent sUsed12 5).1 (by decide),
   (c8_end_idempotent sUsed12 5).2.2.2.1⟩

/-- C7: a failed attempt through a guard of the guard list that never made
contact removes the guard from the guard list (so it is never promoted),
returns false, and leaves every guard record in the registry untouched. -/
theorem c7_neverContacted_removed (s : OClientState) (gid : GuardId)
    (hmem : gid ∈ s.guardList) (hmc : (s.guards gid).madeContact = false) :
    entryGuardRegisterConnectStatus s gid false =
      (false, { s with guardList := s.guardList.filter (fun g => g != gid) }) ∧
    gid ∉ (entryGuardRegisterConnectStatus s gid false).2.guardList ∧
    (entryGuardRegisterConnectStatus s gid false).2.guards = s.guards := by
  have h1 : entryGuardRegisterConnectStatus s gid false =
      (false, { s with guardList := s.guardList.filter (fun g => g != gid) }) := by
    unfold entryGuardRegisterConnectStatus
    simp [hmem, hmc]
  refine ⟨h1, ?_, ?_⟩
  · rw [h1]
    simp [List.mem_filter]
  · rw [h1]

/-- C7 witness: concrete application of c7_neverContacted_removed. -/
theorem c7_witness :
    (2 : GuardId) ∈ oNeverContacted.guardList ∧
    entryGuardRegisterConnectStatus oNeverContacted 2 false =
      (false, { oNeverContacted with
                guardList := oNeverContacted.guardList.filter (fun g => g != 2) }) ∧
    (2 : GuardId) ∉ (entryGuardRegisterConnectStatus oNeverContacted 2 false).2.guardList :=
  ⟨by decide, (c7_neverContacted_removed oNeverContacted 2 (by decide) (by decide)).1,
   (c7_neverContacted_removed oNeverContacted 2 (by decide) (by decide)).2.1⟩

/-- When the GUARDS_TRY_THRESHOLD_TIME attribute is missing,
checkTriedThreshold raises AttributeError at once. -/
theorem checkTriedThreshold_attrError (next : NextFn) (s : AlgoState)
    (guardIds : List GuardId) (hA : s.params.GUARDS_TRY_THRESHOLD_TIME = none) :
    checkTriedThreshold next s guardIds = .error .attributeError := by
  unfold checkTriedThreshold
  rw [hA]

/-- A dispatch from PRIMARY_GUARDS with an empty primary list reaches
checkTriedThreshold immediately and propagates its AttributeError. -/
theorem stateNext_primaryEmpty_attrError (fuel : Nat) (s1 : AlgoState)
    (hA : s1.params.GUARDS_TRY_THRESHOLD_TIME = none)
    (hs : s1.state = .primaryGuards) (hpr : s1.primaryGuards = []) :
    stateNext (fuel + 1) s1 = .error .attributeError := by
  unfold stateNext
  rw [hs]
  show statePrimaryGuardsNext (stateNext fuel) s1 = .error .attributeError
  unfold statePrimaryGuardsNext
  rw [hpr]
  show (match checkTriedThreshold (stateNext fuel) s1 s1.triedGuards with
    | .error e => .error e
    | .ok ((ok, ft), s2) =>
      if !ok then .ok (ft, s2)
      else if allHaveBeenTried s2 then
        transitionToPreviousStateOrTryUtopic (stateNext fuel) s2
      else .ok (none, s2)) = Except.error PyErr.attributeError
  rw [checkTriedThreshold_attrError (stateNext fuel) s1 s1.triedGuards hA]

/-- C10: with a default-constructed ClientParams, checkTriedThreshold
always raises AttributeError (the algorithm reads GUARDS_TRY_THRESHOLD_TIME
and GUARDS_TRY_THRESHOLD, while ClientParams defines only the misspelled
GUARDS_TRY_TRESHOLD_TIME and GUARDS_TRY_TRESHOLD), and a nextGuard call
that reaches it — here from PRIMARY_GUARDS with no primary left to yield —
surfaces that error instead of returning a guard or the empty answer. -/
theorem c10_misspelled_attribute (fuel : Nat) (s : AlgoState) (next : NextFn)
    (guardIds : List GuardId) (hp : s.params = defaultClientParams) :
    checkTriedThreshold next s guardIds = .error .attributeError ∧
    (s.state = .primaryGuards → s.primaryGuards = [] →
      nextGuard (fuel + 1) s = .error .attributeError) := by
  have hA : s.params.GUARDS_TRY_THRESHOLD_TIME = none := by rw [hp]; rfl
  refine ⟨checkTriedThreshold_attrError next s guardIds hA, ?_⟩
  intro hs hpr
  have hAny : hasAnyPrimaryGuardBeenTriedIn s s.params.PRIMARY_GUARDS_RETRY_INTERVAL = false := by
    unfold hasAnyPrimaryGuardBeenTriedIn
    rw [hpr]
    rfl
  unfold nextGuard
  rw [hAny]
  simp only [Bool.false_and, Bool.false_eq_true, if_false]
  have hrun : stateNext (fuel + 1) { s with lastReturn := none } = .error .attributeError :=
    stateNext_primaryEmpty_attrError fuel _ hA hs hpr
  rw [hrun]

/-- C10 witness: a concrete default-parameter session in PRIMARY_GUARDS
with an empty primary list raises AttributeError from nextGuard. -/
theorem c10_witness :
    sDefaultEmpty.params = defaultClientParams ∧
    nextGuard 1 sDefaultEmpty = .error .attributeError :=
  ⟨rfl, (c10_misspelled_attribute 0 sDefaultEmpty (stateNext 0) []
    rfl).2 rfl rfl⟩

/-- Observable shape of connectToGuard: the outcome is the next probe of
the oracle, the clock advances by one second, one probe is consumed, and
the guard list and selection oracle are untouched (only guard marks
change). -/
theorem connectToGuard_shape (s : OClientState) (gid : GuardId) :
    (connectToGuard s gid).1 = s.probes.headD false ∧
    (connectToGuard s gid).2.guardList = s.guardList ∧
    (connectToGuard s gid).2.now = s.now + 1 ∧
    (connectToGuard s gid).2.probes = s.probes.tail ∧
    (connectToGuard s gid).2.chooseRands = s.chooseRands :=
  ⟨rfl, rfl, rfl, rfl, rfl⟩

/-- Registering a failure never reports a retry and consumes neither time
nor oracle input (it only touches the failed guard's record, or filters it
out of the guard list). -/
theorem register_fail_shape (s : OClientState) (gid : GuardId) :
    (entryGuardRegisterConnectStatus s gid false).1 = false ∧
    (entryGuardRegisterConnectStatus s gid false).2.now = s.now ∧
    (entryGuardRegisterConnectStatus s gid false).2.probes = s.probes ∧
    (entryGuardRegisterConnectStatus s gid false).2.chooseRands = s.chooseRands := by
  by_cases h1 : gid ∈ s.guardList
  · by_cases h2 : (s.guards gid).madeContact = true
    · by_cases h3 : pyTruthy (s.guards gid).unreachableSince = true
      · simp [entryGuardRegisterConnectStatus, h1, h2, h3]
      · simp [entryGuardRegisterConnectStatus, h1, h2, h3]
    · simp [entryGuardRegisterConnectStatus, h1, h2]
  · simp [entryGuardRegisterConnectStatus, h1]

/-- entryGuardRegisterConnectStatus reports a retry only for a successful
attempt: every unsuccessful attempt falls through to the branch of
buildCircuit that increments its tried counter. -/
theorem register_true_succeeded (s : OClientState) (gid : GuardId) (up : Bool)
    (h : (entryGuardRegisterConnectStatus s gid up).1 = true) : up = true := by
  cases up with
  | true => rfl
  | false => exact absurd h (by simp [(register_fail_shape s gid).1])

/-- chooseGoodEntryServer never touches the probe oracle. -/
theorem chooseGoodEntryServer_probes (s : OClientState) :
    (chooseGoodEntryServer s).2.probes = s.probes := by
  unfold chooseGoodEntryServer
  cases hx : s.allGuards.filter (fun g => decide (g ∉ s.guardList)) with
  | nil => rfl
  | cons x xs => rfl

/-- addAnEntryGuard never touches the probe oracle. -/
theorem addAnEntryGuard_probes (s : OClientState) :
    (addAnEntryGuard s).2.probes = s.probes := by
  unfold addAnEntryGuard
  cases hc : chooseGoodEntryServer s with
  | mk gq s1 =>
    have h1 : s1.probes = s.probes := by
      have h := chooseGoodEntryServer_probes s
      rw [hc] at h
      exact h
    cases gq with
    | none => exact h1
    | some g =>
      by_cases hm : g ∈ s1.guardList
      · simp only [if_pos hm]
        exact h1
      · simp only [if_neg hm]
        exact h1

/-- The pickEntryGuards loop never touches the probe oracle. -/
theorem pickEntryGuardsAux_probes : ∀ (fuel : Nat) (s : OClientState),
    (pickEntryGuardsAux fuel s).probes = s.probes := by
  intro fuel
  induction fuel with
  | zero => intro s; rfl
  | succ f ih =>
    intro s
    unfold pickEntryGuardsAux
    by_cases hn : numLiveEntryGuards s < 1
    · rw [if_pos hn]
      cases ha : addAnEntryGuard s with
      | mk gq s1 =>
        have h1 : s1.probes = s.probes := by
          have h := addAnEntryGuard_probes s
          rw [ha] at h
          exact h
        cases gq with
        | none => exact h1
        | some g =>
          show (pickEntryGuardsAux f s1).probes = s.probes
          rw [ih s1]
          exact h1
    · rw [if_neg hn]

/-- pickEntryGuards never touches the probe oracle. -/
theorem pickEntryGuards_probes (s : OClientState) :
    (pickEntryGuards s).probes = s.probes :=
  pickEntryGuardsAux_probes _ s

/-- Guard selection never touches the probe oracle: the probe stream seen
by the connection attempt after a chooseRandomGuard call is the stream
before it. -/
theorem chooseRandomEntryImpl_probes : ∀ (cfuel : Nat) (s : OClientState),
    (chooseRandomEntryImpl cfuel s).2.probes = s.probes := by
  intro cfuel
  induction cfuel with
  | zero => intro s; rfl
  | succ f ih =>
    intro s
    unfold chooseRandomEntryImpl
    by_cases hb : (populateLiveEntryGuards (pickEntryGuards s)).2 = true
    · rw [if_pos hb]
      cases hl : (populateLiveEntryGuards (pickEntryGuards s)).1 with
      | nil => exact pickEntryGuards_probes s
      | cons x xs =>
        show ({ pickEntryGuards s with
                chooseRands := (pickEntryGuards s).chooseRands.tail } : OClientState).probes
          = s.probes
        exact pickEntryGuards_probes s
    · rw [if_neg hb]
      show (chooseRandomEntryImpl f
        (if (populateLiveEntryGuards (pickEntryGuards s)).1.length < 2 then
          (addAnEntryGuard (pickEntryGuards s)).2
         else pickEntryGuards s)).2.probes = s.probes
      rw [ih]
      by_cases h2 : (populateLiveEntryGuards (pickEntryGuards s)).1.length < 2
      · rw [if_pos h2, addAnEntryGuard_probes, pickEntryGuards_probes]
      · rw [if_neg h2, pickEntryGuards_probes]

/-- chooseRandomGuard never touches the probe oracle. -/
theorem chooseRandomGuard_probes (cfuel : Nat) (s : OClientState) :
    (chooseRandomGuard cfuel s).2.probes = s.probes :=
  chooseRandomEntryImpl_probes cfuel s

/-- In every terminating run of the buildCircuit loop, the final tried
counter — the number of unsuccessful attempts when starting from 0 — never
exceeds max tried BUILD_CIRCUIT_TIMEOUT: the loop body runs only while
tried < BUILD_CIRCUIT_TIMEOUT and increments tried by at most one. -/
theorem buildCircuitLoop_tried_le (cfuel : Nat) : ∀ (fuel tried : Nat) (s : OClientState)
    (res : BCResult) (t1 : Nat) (s1 : OClientState),
    buildCircuitLoop cfuel fuel tried s = some ((res, t1), s1) →
    t1 ≤ max tried BUILD_CIRCUIT_TIMEOUT := by
  intro fuel
  induction fuel with
  | zero =>
    intro tried s res t1 s1 h
    exact absurd h (by simp [buildCircuitLoop])
  | succ f ih =>
    intro tried s res t1 s1 h
    by_cases ht : tried < BUILD_CIRCUIT_TIMEOUT
    · rcases hcg : chooseRandomGuard cfuel s with ⟨gq, sA⟩
      cases gq with
      | none =>
        have hnone : buildCircuitLoop cfuel (f + 1) tried s = none := by
          conv_lhs => unfold buildCircuitLoop
          rw [if_pos ht, hcg]
        rw [hnone] at h
        cases h
      | some g =>
        have hstep : buildCircuitLoop cfuel (f + 1) tried s =
            (if (entryGuardRegisterConnectStatus (connectToGuard sA g).2 g
                  (connectToGuard sA g).1).1 then
              buildCircuitLoop cfuel f tried
                (entryGuardRegisterConnectStatus (connectToGuard sA g).2 g
                  (connectToGuard sA g).1).2
            else if (connectToGuard sA g).1 then
              some ((.circuit g, tried),
                (entryGuardRegisterConnectStatus (connectToGuard sA g).2 g
                  (connectToGuard sA g).1).2)
            else
              buildCircuitLoop cfuel f (tried + 1)
                (entryGuardRegisterConnectStatus (connectToGuard sA g).2 g
                  (connectToGuard sA g).1).2) := by
          conv_lhs => unfold buildCircuitLoop
          rw [if_pos ht, hcg]
        rw [hstep] at h
        by_cases hr : (entryGuardRegisterConnectStatus (connectToGuard sA g).2 g
            (connectToGuard sA g).1).1 = true
        · rw [if_pos hr] at h
          exact ih tried _ res t1 s1 h
        · rw [if_neg hr] at h
          by_cases hc : (connectToGuard sA g).1 = true
          · rw [if_pos hc] at h
            simp only [Option.some.injEq, Prod.mk.injEq] at h
            obtain ⟨⟨hres, ht1⟩, _⟩ := h
            subst ht1
            exact Nat.le_max_left _ _
          · rw [if_neg hc] at h
            have hb := ih (tried + 1) _ res t1 s1 h
            rw [Nat.max_eq_right ht] at hb
            exact hb.trans (Nat.le_max_right _ _)
    · have hstep : buildCircuitLoop cfuel (f + 1) tried s = some ((.timeout, tried), s) := by
        conv_lhs => unfold buildCircuitLoop
        rw [if_neg ht]
      rw [hstep] at h
      simp only [Option.some.injEq, Prod.mk.injEq] at h
      obtain ⟨⟨hres, ht1⟩, _⟩ := h
      subst ht1
      exact Nat.le_max_left _ _

/-- A terminating buildCircuit-loop run under an all-failure probe oracle
returns the timeout value and a final tried counter of exactly
max tried BUILD_CIRCUIT_TIMEOUT: every iteration makes one failing attempt
and increments tried. -/
theorem buildCircuitLoop_allFalse (cfuel : Nat) : ∀ (fuel tried : Nat) (s : OClientState)
    (res : BCResult) (t1 : Nat) (s1 : OClientState),
    (∀ b ∈ s.probes, b = false) →
    buildCircuitLoop cfuel fuel tried s = some ((res, t1), s1) →
    res = .timeout ∧ t1 = max tried BUILD_CIRCUIT_TIMEOUT := by
  intro fuel
  induction fuel with
  | zero =>
    intro tried s res t1 s1 _ h
    exact absurd h (by simp [buildCircuitLoop])
  | succ f ih =>
    intro tried s res t1 s1 hp h
    by_cases ht : tried < BUILD_CIRCUIT_TIMEOUT
    · rcases hcg : chooseRandomGuard cfuel s with ⟨gq, sA⟩
      have hpA : sA.probes = s.probes := by
        have h2 := chooseRandomGuard_probes cfuel s
        rw [hcg] at h2
        exact h2
      cases gq with
      | none =>
        have hnone : buildCircuitLoop cfuel (f + 1) tried s = none := by
          conv_lhs => unfold buildCircuitLoop
          rw [if_pos ht, hcg]
        rw [hnone] at h
        cases h
      | some g =>
        have hfalse : (connectToGuard sA g).1 = false := by
          rw [(connectToGuard_shape sA g).1, hpA]
          cases hq : s.probes with
          | nil => rfl
          | cons b t => simpa using hp b (by rw [hq]; exact List.mem_cons_self b t)
        have hstep : buildCircuitLoop cfuel (f + 1) tried s =
            (if (entryGuardRegisterConnectStatus (connectToGuard sA g).2 g
                  (connectToGuard sA g).1).1 then
              buildCircuitLoop cfuel f tried
                (entryGuardRegisterConnectStatus (connectToGuard sA g).2 g
                  (connectToGuard sA g).1).2
            else if (connectToGuard sA g).1 then
              some ((.circuit g, tried),
                (entryGuardRegisterConnectStatus (connectToGuard sA g).2 g
                  (connectToGuard sA g).1).2)
            else
              buildCircuitLoop cfuel f (tried + 1)
                (entryGuardRegisterConnectStatus (connectToGuard sA g).2 g
                  (connectToGuard sA g).1).2) := by
          conv_lhs => unfold buildCircuitLoop
          rw [if_pos ht, hcg]
        rw [hstep, hfalse] at h
        rw [(register_fail_shape (connectToGuard sA g).2 g).1] at h
        simp only [Bool.false_eq_true, if_false] at h
        have hptail : ∀ b ∈ (entryGuardRegisterConnectStatus
            (connectToGuard sA g).2 g false).2.probes, b = false := by
          intro b hb
          rw [(register_fail_shape (connectToGuard sA g).2 g).2.2.1,
            (connectToGuard_shape sA g).2.2.2.1, hpA] at hb
          exact hp b (List.mem_of_mem_tail hb)
        obtain ⟨hres, ht1⟩ := ih (tried + 1) _ res t1 s1 hptail h
        refine ⟨hres, ?_⟩
        rw [ht1, Nat.max_eq_right ht]
        exact (Nat.max_eq_right (Nat.le_of_lt ht)).symm
    · have hstep : buildCircuitLoop cfuel (f + 1) tried s = some ((.timeout, tried), s) := by
        conv_lhs => unfold buildCircuitLoop
        rw [if_neg ht]
      rw [hstep] at h
      simp only [Option.some.injEq, Prod.mk.injEq] at h
      obtain ⟨⟨hres, ht1⟩, _⟩ := h
      subst ht1
      exact ⟨hres.symm, (Nat.max_eq_left (Nat.le_of_not_lt ht)).symm⟩

/-- C9 counterexample: a concrete session in which every connection attempt
fails.  buildCircuit makes its 30 unsuccessful attempts and returns the
timeout value, yet the final guard list contains guard 7, which was not in
the guard list when the session began: the in-loop entry-guard refill
(pickEntryGuards / addAnEntryGuard inside chooseRandomGuard) appended it,
and failure registration keeps an already-contacted guard in the list.
This refutes the claim's conjunct that a timed-out session leaves the
client's list of long-term guards unextended. -/
theorem c9_counterexample :
    oC9.guardList = [] ∧
    bcOutcome (buildCircuit 2 31 oC9) = some (.timeout, 30) ∧
    bcGuardList (buildCircuit 2 31 oC9) = some [7] :=
  ⟨rfl, rfl, rfl⟩

/-- C9 amended: every terminating buildCircuit run makes at most
BUILD_CIRCUIT_TIMEOUT = 30 unsuccessful connection attempts (the returned
counter is the source's tried, incremented once per unsuccessful attempt;
the only branch that repeats without counting requires a successful
attempt); and when every probe of the session fails, a terminating run
returns the timeout value ⊥ after exactly 30 unsuccessful attempts.  No
statement is made that the guard list is untouched: the counterexample
shows a timed-out session can extend it. -/
theorem c9_amended_timeout_bound (cfuel fuel : Nat) (s : OClientState)
    (res : BCResult) (t1 : Nat) (s1 : OClientState)
    (hrun : buildCircuit cfuel fuel s = some ((res, t1), s1)) :
    t1 ≤ BUILD_CIRCUIT_TIMEOUT ∧
    (∀ s0 gid up, (entryGuardRegisterConnectStatus s0 gid up).1 = true → up = true) ∧
    ((∀ b ∈ s.probes, b = false) → res = .timeout ∧ t1 = BUILD_CIRCUIT_TIMEOUT) := by
  refine ⟨?_, fun s0 gid up h => register_true_succeeded s0 gid up h, ?_⟩
  · have hb := buildCircuitLoop_tried_le cfuel fuel 0 s res t1 s1 hrun
    simpa using hb
  · intro hp
    have hb := buildCircuitLoop_allFalse cfuel fuel 0 s res t1 s1 hp hrun
    simpa using hb

/-- C9 witness: the all-fail concrete session terminates, and the amended
theorem applied to its run yields the timeout value with exactly 30
unsuccessful attempts. -/
theorem c9_witness :
    ∃ res t1 s1, buildCircuit 2 31 oC9 = some ((res, t1), s1) ∧
      t1 ≤ BUILD_CIRCUIT_TIMEOUT ∧
      ((∀ b ∈ oC9.probes, b = false) → res = .timeout ∧ t1 = BUILD_CIRCUIT_TIMEOUT) := by
  cases hE : buildCircuit 2 31 oC9 with
  | none =>
    have h0 : bcOutcome (buildCircuit 2 31 oC9) = some (.timeout, 30) := rfl
    rw [hE] at h0
    simp [bcOutcome] at h0
  | some p =>
    obtain ⟨⟨res, t1⟩, s1⟩ := p
    have h := c9_amended_timeout_bound 2 31 oC9 res t1 s1 hE
    exact ⟨res, t1, s1, rfl, h.1, h.2.2⟩

/-- Folding a set-canRetry update over a list turns the flag on for every
member and keeps it on wherever it already was. -/
theorem foldl_setCanRetry_mem (l : List GuardId) : ∀ (h : Heap) (gid : GuardId),
    gid ∈ l ∨ (h gid).canRetry = true →
    ((l.foldl (fun h g => updateHeap h g { h g with canRetry := true }) h) gid).canRetry = true := by
  induction l with
  | nil =>
    intro h gid hyp
    rcases hyp with h1 | h2
    · exact absurd h1 (List.not_mem_nil _)
    · simpa using h2
  | cons a t ih =>
    intro h gid hyp
    simp only [List.foldl_cons]
    apply ih
    by_cases hga : gid = a
    · right
      subst hga
      simp [updateHeap]
    · rcases hyp with h1 | h2
      · rcases List.mem_cons.mp h1 with h3 | h4
        · exact absurd h3 hga
        · exact Or.inl h4
      · right
        simpa [updateHeap, hga] using h2

/-- markPrimaryGuardsForRetry switches canRetry on for every primary guard
of the session. -/
theorem markPrimaryGuardsForRetry_canRetry (s : AlgoState) :
    ∀ p ∈ s.primaryGuards, ((markPrimaryGuardsForRetry s).guards p).canRetry = true := by
  intro p hp
  exact foldl_setCanRetry_mem s.primaryGuards s.guards p (Or.inl hp)

/-- The preemption branch of nextGuard, fully evaluated: when some primary
guard is stale and the session is not in PRIMARY_GUARDS, the call marks all
primaries for retry, saves the previous state, transitions immediately into
PRIMARY_GUARDS, and returns the head of primaryGuards in the same call. -/
theorem preemption_run (fuel : Nat) (s : AlgoState) (gid : GuardId) (t : ℤ)
    (hm : gid ∈ s.primaryGuards) (h1 : (s.guards gid).lastTried = some t) (h2 : t ≠ 0)
    (h3 : t + s.params.PRIMARY_GUARDS_RETRY_INTERVAL * 60 < s.now)
    (hs : s.state ≠ .primaryGuards) :
    ∃ g s1, nextGuard (fuel + 1) s = .ok (some g, s1) ∧ g ∈ s.primaryGuards ∧
      (∀ p ∈ s.primaryGuards, (s1.guards p).canRetry = true) ∧
      s1.previousState = some s.state ∧ s1.state = .primaryGuards := by
  have hAny : hasAnyPrimaryGuardBeenTriedIn s s.params.PRIMARY_GUARDS_RETRY_INTERVAL = true := by
    unfold hasAnyPrimaryGuardBeenTriedIn
    rw [List.any_eq_true]
    refine ⟨gid, hm, ?_⟩
    rw [h1]
    simp [pyTruthy, h2, h3]
  have hbe : (s.state == StateTag.primaryGuards) = false := by
    cases hE : s.state == StateTag.primaryGuards
    · rfl
    · exact absurd (eq_of_beq hE) hs
  obtain ⟨a, rest, hP⟩ := List.exists_cons_of_ne_nil (List.ne_nil_of_mem hm)
  have hmem_a : a ∈ s.primaryGuards := by
    rw [hP]
    exact List.mem_cons_self a rest
  have hcanR := markPrimaryGuardsForRetry_canRetry s
  refine ⟨a,
    { markPrimaryGuardsForRetry s with previousState := some s.state, state := .primaryGuards },
    ?_, hmem_a, fun p hp2 => hcanR p hp2, rfl, rfl⟩
  unfold nextGuard
  rw [hAny, hbe]
  simp only [Bool.not_false, Bool.and_self, if_true]
  unfold transitionTo
  unfold stateNext
  show statePrimaryGuardsNext (stateNext fuel)
    { markPrimaryGuardsForRetry s with previousState := some s.state, state := .primaryGuards } = _
  unfold statePrimaryGuardsNext
  have hPG : ({ markPrimaryGuardsForRetry s with previousState := some s.state, state := StateTag.primaryGuards } : AlgoState).primaryGuards = a :: rest := hP
  rw [hPG]
  unfold statePrimaryGuardsLoop
  rw [if_pos (hcanR a hmem_a)]
  rw [← hP]
  rfl

/-- C2 counterexample: primary guard 0 was last tried at the Python
timestamp 0, which lies more than PRIMARY_GUARDS_RETRY_INTERVAL minutes
before now = 200, and the session is not in PRIMARY_GUARDS — so the claim
demands preemption: every primary marked canRetry, previousState saved,
and a primary yielded.  The code's truthiness test `if not pg._lastTried`
in _hasAnyPrimaryGuardBeenTriedIn treats the timestamp 0 as unset, so the
call runs TRY_UTOPIC instead: no guard is yielded, guard 0 is not marked
canRetry, and the state does not change. -/
theorem c2_counterexample :
    sNoPreempt.state ≠ .primaryGuards ∧
    (0 : GuardId) ∈ sNoPreempt.primaryGuards ∧
    (sNoPreempt.guards 0).lastTried = some 0 ∧
    0 + sNoPreempt.params.PRIMARY_GUARDS_RETRY_INTERVAL * 60 < sNoPreempt.now ∧
    runGuard (nextGuard 4 sNoPreempt) = some none ∧
    runCanRetry (nextGuard 4 sNoPreempt) 0 = some false ∧
    runStateTag (nextGuard 4 sNoPreempt) = some .tryUtopic :=
  ⟨by decide, by decide, rfl, by decide, rfl, rfl, rfl⟩

/-- C2 amended: at a nextGuard call where some primary guard was last tried
at a truthy (nonzero) timestamp — the code treats the Python timestamp 0 as
unset, see the counterexample — more than PRIMARY_GUARDS_RETRY_INTERVAL
minutes ago and the state is not PRIMARY_GUARDS, every primary guard is
marked canRetry, previousState is set to the outgoing state, and the guard
yielded by this very call is a member of primaryGuards. -/
theorem c2_preemption_law (fuel : Nat) (s : AlgoState) (gid : GuardId) (t : ℤ)
    (hm : gid ∈ s.primaryGuards) (h1 : (s.guards gid).lastTried = some t) (h2 : t ≠ 0)
    (h3 : t + s.params.PRIMARY_GUARDS_RETRY_INTERVAL * 60 < s.now)
    (hs : s.state ≠ .primaryGuards) :
    ∃ g s1, nextGuard (fuel + 1) s = .ok (some g, s1) ∧ g ∈ s.primaryGuards ∧
      (∀ p ∈ s.primaryGuards, (s1.guards p).canRetry = true) ∧
      s1.previousState = some s.state := by
  obtain ⟨g, s1, hrun, hmem, hcr, hprev, _⟩ := preemption_run fuel s gid t hm h1 h2 h3 hs
  exact ⟨g, s1, hrun, hmem, hcr, hprev⟩

/-- C2 witness: concrete application of c2_preemption_law to a session in
TRY_DYSTOPIC whose primary guard 3 went stale. -/
theorem c2_witness :
    (3 : GuardId) ∈ sPreemptB.primaryGuards ∧
    (sPreemptB.guards 3).lastTried = some 7 ∧
    sPreemptB.state ≠ .primaryGuards ∧
    ∃ g s1, nextGuard 1 sPreemptB = .ok (some g, s1) ∧ g ∈ sPreemptB.primaryGuards ∧
      (∀ p ∈ sPreemptB.primaryGuards, (s1.guards p).canRetry = true) ∧
      s1.previousState = some sPreemptB.state :=
  ⟨by decide, rfl, by decide,
   c2_preemption_law 0 sPreemptB 3 7 (by decide) rfl (by decide) (by decide) (by decide)⟩

/-- C1 counterexample: a concrete nextGuard call on a session in TRY_UTOPIC
that transitions into PRIMARY_GUARDS and nevertheless returns guard 0 — not
the empty answer — in the same call, refuting the claim that a transitioning
call always returns the empty answer and yields a guard only on a
subsequent call. -/
theorem c1_counterexample :
    sPreempt.state = .tryUtopic ∧
    runStateTag (nextGuard 2 sPreempt) = some .primaryGuards ∧
    runGuard (nextGuard 2 sPreempt) = some (some 0) :=
  ⟨rfl, rfl, rfl⟩

/-- C1 amended: transitionTo is transitionImmediatelyTo, so a nextGuard
call that changes state runs the new state within the same call and returns
its yield at once; in particular a preemption call both transitions into
PRIMARY_GUARDS and returns a guard, rather than returning the empty answer
as a transition tick. -/
theorem c1_amended_immediate_transition (fuel : Nat) (s : AlgoState) (gid : GuardId) (t : ℤ)
    (hm : gid ∈ s.primaryGuards) (h1 : (s.guards gid).lastTried = some t) (h2 : t ≠ 0)
    (h3 : t + s.params.PRIMARY_GUARDS_RETRY_INTERVAL * 60 < s.now)
    (hs : s.state ≠ .primaryGuards) :
    ∃ g s1, nextGuard (fuel + 1) s = .ok (some g, s1) ∧ s1.state = .primaryGuards ∧
      s.state ≠ .primaryGuards := by
  obtain ⟨g, s1, hrun, _, _, _, hst⟩ := preemption_run fuel s gid t hm h1 h2 h3 hs
  exact ⟨g, s1, hrun, hst, hs⟩

/-- C1 amended witness: concrete application of
c1_amended_immediate_transition to a session in RETRY_ONLY. -/
theorem c1_amended_witness :
    sPreemptC.state ≠ .primaryGuards ∧
    ∃ g s1, nextGuard 1 sPreemptC = .ok (some g, s1) ∧ s1.state = .primaryGuards ∧
      sPreemptC.state ≠ .primaryGuards :=
  ⟨by decide,
   c1_amended_immediate_transition 0 sPreemptC 2 5 (by decide) rfl (by decide) (by decide)
     (by decide)⟩

/-- markAsUnreachable always leaves a set unreachableSince timestamp. -/
theorem markAsUnreachable_isSome (now : ℤ) (g : Guard) :
    ((markAsUnreachable now g).unreachableSince).isSome = true := by
  unfold markAsUnreachable
  cases hu : g.unreachableSince with
  | none => simp [pyTruthy, hu]
  | some v =>
    by_cases hv : pyTruthy (some v) = true
    · simp [hv, hu]
    · simp [hv, hu]

/-- Folding markAsUnreachable over a list leaves every member with a set
unreachableSince (and keeps any already-set timestamp set). -/
theorem foldl_markUnreachable_mem (now : ℤ) (l : List GuardId) : ∀ (h : Heap) (gid : GuardId),
    gid ∈ l ∨ ((h gid).unreachableSince).isSome = true →
    (((l.foldl (fun h g => updateHeap h g (markAsUnreachable now (h g))) h) gid).unreachableSince).isSome
      = true := by
  induction l with
  | nil =>
    intro h gid hyp
    rcases hyp with h1 | h2
    · exact absurd h1 (List.not_mem_nil _)
    · simpa using h2
  | cons a t ih =>
    intro h gid hyp
    simp only [List.foldl_cons]
    apply ih
    by_cases hga : gid = a
    · right
      subst hga
      simpa [updateHeap] using markAsUnreachable_isSome now (h gid)
    · rcases hyp with h1 | h2
      · rcases List.mem_cons.mp h1 with h3 | h4
        · exact absurd h3 hga
        · exact Or.inl h4
      · right
        simpa [updateHeap, hga] using h2

/-- C5 amended: when the TRY_DYSTOPIC failover check fails (the tried
dystopic list exceeds GUARDS_FAILOVER_THRESHOLD times the dystopic pool),
the state machine transitions to RETRY_ONLY — not PRIMARY_GUARDS — and
every guard in primaryGuards, triedGuards and triedDystopicGuards is marked
unreachable (unreachableSince set); no canRetry marking takes place. -/
theorem c5_amended_retryOnly (fuel : Nat) (s : AlgoState) (f : ℤ)
    (hf : s.params.GUARDS_FAILOVER_THRESHOLD = some f)
    (hgt : (s.triedDystopicGuards.length : ℤ) > f * (s.dystopicGuards.length : ℤ)) :
    ∃ r s1, checkTriedDystopicFailoverAndMarkAllAsUnreachable (stateNext (fuel + 1)) s
        = .ok ((false, r), s1) ∧
      s1.state = .retryOnly ∧
      ∀ gid ∈ s.primaryGuards ++ s.triedGuards ++ s.triedDystopicGuards,
        ((s1.guards gid).unreachableSince).isSome = true := by
  obtain ⟨lr, t1, hE⟩ : ∃ lr t1,
      returnEachEntryInTurn (sortByLastTried s.guards (s.triedGuards ++ s.triedDystopicGuards))
        s.retryTurn = (lr, t1) := ⟨_, _, rfl⟩
  have hRET : stateRetryOnlyNext { s with state := StateTag.retryOnly } =
      (none, { s with state := StateTag.retryOnly, lastReturn := lr, retryTurn := t1 }) := by
    unfold stateRetryOnlyNext
    simp only [hE]
  refine ⟨none,
    { s with state := StateTag.retryOnly, lastReturn := lr, retryTurn := t1,
             guards := (s.primaryGuards ++ s.triedGuards ++ s.triedDystopicGuards).foldl
               (fun h gid => updateHeap h gid (markAsUnreachable s.now (h gid))) s.guards },
    ?_, rfl, ?_⟩
  · simp only [checkTriedDystopicFailoverAndMarkAllAsUnreachable, checkFailover, hf,
      transitionTo, stateNext, hRET, hgt, if_true, Bool.false_eq_true, if_false]
  · intro gid hmem
    exact foldl_markUnreachable_mem s.now
      (s.primaryGuards ++ s.triedGuards ++ s.triedDystopicGuards) s.guards gid (Or.inl hmem)

/-- C5 counterexample: a concrete nextGuard call in TRY_DYSTOPIC whose
dystopic sample is exhausted moves the session to RETRY_ONLY, not
PRIMARY_GUARDS, and the primary guard 1 is left with canRetry = false, not
marked for retry as the claim demands. -/
theorem c5_counterexample :
    sDysExhausted.state = .tryDystopic ∧
    sDysExhausted.primaryGuards = [1] ∧
    runStateTag (nextGuard 3 sDysExhausted) = some .retryOnly ∧
    runCanRetry (nextGuard 3 sDysExhausted) 1 = some false :=
  ⟨rfl, rfl, rfl, rfl⟩

/-- C5 witness: concrete application of c5_amended_retryOnly to the
exhausted-dystopic session. -/
theorem c5_witness :
    sDysExhausted.params.GUARDS_FAILOVER_THRESHOLD = some 1 ∧
    ((sDysExhausted.triedDystopicGuards.length : ℤ)
      > 1 * (sDysExhausted.dystopicGuards.length : ℤ)) ∧
    ∃ r s1, checkTriedDystopicFailoverAndMarkAllAsUnreachable (stateNext 1) sDysExhausted
        = .ok ((false, r), s1) ∧
      s1.state = .retryOnly ∧
      ∀ gid ∈ sDysExhausted.primaryGuards ++ sDysExhausted.triedGuards
          ++ sDysExhausted.triedDystopicGuards,
        ((s1.guards gid).unreachableSince).isSome = true :=
  ⟨rfl, by decide, c5_amended_retryOnly 0 sDysExhausted 1 rfl (by decide)⟩

/-- dedupFrom only depends on the membership of the seen list. -/
theorem dedupFrom_congr : ∀ (l : List GuardId) (s1 s2 : List GuardId),
    (∀ x, x ∈ s1 ↔ x ∈ s2) → dedupFrom s1 l = dedupFrom s2 l := by
  intro l
  induction l with
  | nil => intro s1 s2 _; rfl
  | cons g t ih =>
    intro s1 s2 hiff
    unfold dedupFrom
    by_cases hg : g ∈ s1
    · rw [if_pos hg, if_pos ((hiff g).mp hg)]
      exact ih s1 s2 hiff
    · rw [if_neg hg, if_neg (fun hc => hg ((hiff g).mpr hc))]
      rw [ih (g :: s1) (g :: s2) (fun x => by simp [hiff x])]

/-- Seeing acc ++ [g] is the same as seeing g :: acc. -/
theorem dedupFrom_append_singleton (l acc : List GuardId) (g : GuardId) :
    dedupFrom (acc ++ [g]) l = dedupFrom (g :: acc) l :=
  dedupFrom_congr l _ _ (fun x => by simp [or_comm])

/-- Unfolding dedupFrom over a cons whose head was already seen. -/
theorem dedupFrom_cons_mem {acc : List GuardId} {u : GuardId} (hin : u ∈ acc)
    (l : List GuardId) : dedupFrom acc (u :: l) = dedupFrom acc l := by
  show (if u ∈ acc then dedupFrom acc l else u :: dedupFrom (u :: acc) l) = dedupFrom acc l
  rw [if_pos hin]

/-- Unfolding dedupFrom over a cons with an unseen head. -/
theorem dedupFrom_cons_not_mem {acc : List GuardId} {u : GuardId} (hin : u ∉ acc)
    (l : List GuardId) : dedupFrom acc (u :: l) = u :: dedupFrom (u :: acc) l := by
  show (if u ∈ acc then dedupFrom acc l else u :: dedupFrom (u :: acc) l) = _
  rw [if_neg hin]

/-- On a duplicate-free list disjoint from the seen set, dedupFrom is the
identity. -/
theorem dedupFrom_of_nodup : ∀ (l seen : List GuardId),
    l.Nodup → (∀ x ∈ l, x ∉ seen) → dedupFrom seen l = l := by
  intro l
  induction l with
  | nil => intro seen _ _; rfl
  | cons g t ih =>
    intro seen hnd hdisj
    rw [dedupFrom_cons_not_mem (hdisj g (List.mem_cons_self g t)) t]
    rw [List.nodup_cons] at hnd
    rw [ih (g :: seen) hnd.2 ?_]
    intro x hx
    rw [List.mem_cons]
    rintro (hxg | hxs)
    · exact hnd.1 (hxg ▸ hx)
    · exact hdisj x (List.mem_cons_of_mem g hx) hxs

/-- The scan of _nextPrimaryGuard finds exactly the head of the deduplicated
non-bad used list (relative to the already chosen guards), leaving the
matching tail of the used list behind. -/
theorem popFirstGood_spec (heap : Heap) : ∀ (used acc : List GuardId)
    (g : GuardId) (rest : List GuardId),
    dedupFrom acc (usedNonBad heap used) = g :: rest →
    ∃ post, popFirstGood heap acc used = some (g, post) ∧
      dedupFrom (g :: acc) (usedNonBad heap post) = rest := by
  intro used
  induction used with
  | nil =>
    intro acc g rest h
    simp [usedNonBad, dedupFrom] at h
  | cons u t ih =>
    intro acc g rest h
    by_cases hbad : (heap u).bad = true
    · have hf : usedNonBad heap (u :: t) = usedNonBad heap t := by
        simp [usedNonBad, List.filter_cons, hbad]
      rw [hf] at h
      obtain ⟨post, hpop, hrest⟩ := ih acc g rest h
      refine ⟨post, ?_, hrest⟩
      unfold popFirstGood
      rw [if_neg (fun hc => by simp [hbad] at hc)]
      exact hpop
    · have hbad2 : (heap u).bad = false := by
        cases hB : (heap u).bad
        · rfl
        · exact absurd hB hbad
      have hf : usedNonBad heap (u :: t) = u :: usedNonBad heap t := by
        simp [usedNonBad, List.filter_cons, hbad2]
      rw [hf] at h
      by_cases hin : u ∈ acc
      · rw [dedupFrom_cons_mem hin] at h
        obtain ⟨post, hpop, hrest⟩ := ih acc g rest h
        refine ⟨post, ?_, hrest⟩
        unfold popFirstGood
        rw [if_neg (fun hc => hc.1 hin)]
        exact hpop
      · rw [dedupFrom_cons_not_mem hin] at h
        obtain ⟨hgu, hrest⟩ := List.cons.injEq u _ g rest ▸ h
        refine ⟨t, ?_, ?_⟩
        · unfold popFirstGood
          rw [if_pos ⟨hin, hbad2⟩, hgu]
        · rw [← hgu]
          exact hrest

/-- popFirstGood returns a non-bad guard of the used list that is not yet a
primary guard, and a suffix-like remainder contained in the used list. -/
theorem popFirstGood_mem (heap : Heap) (acc : List GuardId) : ∀ (used : List GuardId)
    (g : GuardId) (post : List GuardId),
    popFirstGood heap acc used = some (g, post) →
    g ∈ used ∧ (heap g).bad = false ∧ g ∉ acc ∧ ∀ x ∈ post, x ∈ used := by
  intro used
  induction used with
  | nil =>
    intro g post h
    simp [popFirstGood] at h
  | cons u t ih =>
    intro g post h
    unfold popFirstGood at h
    by_cases hc : u ∉ acc ∧ (heap u).bad = false
    · rw [if_pos hc] at h
      have h2 : u = g ∧ t = post := by
        simpa using h
      obtain ⟨h3, h4⟩ := h2
      subst h3
      subst h4
      exact ⟨List.mem_cons_self u t, hc.2, hc.1, fun x hx => List.mem_cons_of_mem u hx⟩
    · rw [if_neg hc] at h
      obtain ⟨h1, h2, h3, h4⟩ := ih g post h
      exact ⟨List.mem_cons_of_mem u h1, h2, h3, fun x hx => List.mem_cons_of_mem u (h4 x hx)⟩

/-- random.choice returns a member of the sequence. -/
theorem randomChoice_mem (remaining : List GuardId) (rands : List Nat) (g : GuardId)
    (r : List Nat) (h : randomChoice remaining rands = .ok (g, r)) : g ∈ remaining := by
  cases remaining with
  | nil => simp [randomChoice] at h
  | cons x xs =>
    unfold randomChoice at h
    simp only [Except.ok.injEq, Prod.mk.injEq] at h
    rw [← h.1]
    exact List.get_mem (x :: xs) _ _

/-- Case analysis of one _nextPrimaryGuard draw: either the candidate comes
from the used list (then it is non-bad, not yet primary, and the leftover
used list shrinks within the old one), or it comes from remainingUtopic and
the used list is exhausted. -/
theorem nextPrimaryGuard_cases (heap : Heap) (used remaining acc : List GuardId)
    (rands : List Nat) (g : GuardId) (used1 : List GuardId) (rands1 : List Nat)
    (h : nextPrimaryGuard heap used remaining acc rands = .ok (g, used1, rands1)) :
    (g ∈ used ∧ (heap g).bad = false ∧ g ∉ acc ∧ ∀ x ∈ used1, x ∈ used) ∨
    (g ∈ remaining ∧ used1 = []) := by
  cases used with
  | nil =>
    right
    unfold nextPrimaryGuard at h
    cases hrc : randomChoice remaining rands with
    | error e => rw [hrc] at h; simp at h
    | ok p =>
      obtain ⟨g0, r0⟩ := p
      rw [hrc] at h
      have h2 : g0 = g ∧ used1 = [] ∧ r0 = rands1 := by
        simpa using h
      obtain ⟨h3, h4, _⟩ := h2
      subst h3
      exact ⟨randomChoice_mem remaining rands g0 r0 hrc, h4⟩
  | cons u t =>
    unfold nextPrimaryGuard at h
    cases hpop : popFirstGood heap acc (u :: t) with
    | some p =>
      obtain ⟨g0, post⟩ := p
      rw [hpop] at h
      have h2 : g0 = g ∧ post = used1 ∧ rands = rands1 := by
        simpa using h
      obtain ⟨h3, h4, _⟩ := h2
      subst h3
      subst h4
      exact Or.inl (popFirstGood_mem heap acc (u :: t) g0 post hpop)
    | none =>
      right
      rw [hpop] at h
      cases hrc : randomChoice remaining rands with
      | error e => rw [hrc] at h; simp at h
      | ok p =>
        obtain ⟨g0, r0⟩ := p
        rw [hrc] at h
        have h2 : g0 = g ∧ used1 = [] ∧ r0 = rands1 := by
          simpa using h
        obtain ⟨h3, h4, _⟩ := h2
        subst h3
        exact ⟨randomChoice_mem remaining rands g0 r0 hrc, h4⟩

/-- While enough distinct non-bad used guards remain, the primary-guard
loop consumes exactly them, in first-occurrence order, without ever
touching the random oracle. -/
theorem findPrimaryGuardsAux_usedPhase (heap : Heap) (remaining : List GuardId) :
    ∀ (slots : Nat) (used acc : List GuardId) (rands : List Nat),
    slots ≤ (dedupFrom acc (usedNonBad heap used)).length →
    findPrimaryGuardsAux heap remaining slots used rands acc =
      .ok (acc ++ (dedupFrom acc (usedNonBad heap used)).take slots, rands) := by
  intro slots
  induction slots with
  | zero =>
    intro used acc rands _
    simp [findPrimaryGuardsAux]
  | succ k ih =>
    intro used acc rands hlen
    cases hD : dedupFrom acc (usedNonBad heap used) with
    | nil =>
      rw [hD] at hlen
      simp at hlen
    | cons g rest =>
      obtain ⟨post, hpop, hrest⟩ := popFirstGood_spec heap used acc g rest hD
      cases used with
      | nil =>
        simp [usedNonBad, dedupFrom] at hD
      | cons u t =>
        have hnext : nextPrimaryGuard heap (u :: t) remaining acc rands
            = .ok (g, post, rands) := by
          unfold nextPrimaryGuard
          rw [hpop]
        unfold findPrimaryGuardsAux
        rw [hnext]
        show findPrimaryGuardsAux heap remaining k post rands (acc ++ [g]) = _
        have hded : dedupFrom (acc ++ [g]) (usedNonBad heap post) = rest := by
          rw [dedupFrom_append_singleton]
          exact hrest
        have hlen2 : k ≤ (dedupFrom (acc ++ [g]) (usedNonBad heap post)).length := by
          rw [hded]
          rw [hD] at hlen
          simpa using Nat.le_of_succ_le_succ hlen
        rw [ih post (acc ++ [g]) rands hlen2]
        rw [hded]
        simp [List.take_succ_cons, List.append_assoc]

/-- The length of the constructed primary list is the initial length plus
the number of slots. -/
theorem findPrimaryGuardsAux_length (heap : Heap) (remaining : List GuardId) :
    ∀ (slots : Nat) (used acc : List GuardId) (rands : List Nat)
      (ps : List GuardId) (r1 : List Nat),
    findPrimaryGuardsAux heap remaining slots used rands acc = .ok (ps, r1) →
    ps.length = acc.length + slots := by
  intro slots
  induction slots with
  | zero =>
    intro used acc rands ps r1 h
    simp [findPrimaryGuardsAux] at h
    simp [← h.1]
  | succ k ih =>
    intro used acc rands ps r1 h
    unfold findPrimaryGuardsAux at h
    cases hnx : nextPrimaryGuard heap used remaining acc rands with
    | error e => rw [hnx] at h; simp at h
    | ok trip =>
      obtain ⟨g, used1, rands2⟩ := trip
      rw [hnx] at h
      have := ih used1 (acc ++ [g]) rands2 ps r1 h
      simp at this
      omega

/-- Structure of any successfully constructed primary list: a prefix drawn
from the used list — pairwise distinct, non-bad, disjoint from the already
accumulated guards — followed by draws from the remaining pool, which are
only known to be members of that pool. -/
theorem findPrimaryGuardsAux_split (heap : Heap) (remaining : List GuardId) :
    ∀ (slots : Nat) (used acc : List GuardId) (rands : List Nat)
      (ps : List GuardId) (r1 : List Nat),
    findPrimaryGuardsAux heap remaining slots used rands acc = .ok (ps, r1) →
    ∃ qs k, ps = acc ++ qs ∧
      (qs.take k).Nodup ∧
      (∀ g ∈ qs.take k, g ∈ used ∧ (heap g).bad = false ∧ g ∉ acc) ∧
      (∀ g ∈ qs.drop k, g ∈ remaining) := by
  intro slots
  induction slots with
  | zero =>
    intro used acc rands ps r1 h
    simp [findPrimaryGuardsAux] at h
    refine ⟨[], 0, by simp [← h.1], by simp, by simp, by simp⟩
  | succ n ih =>
    intro used acc rands ps r1 h
    unfold findPrimaryGuardsAux at h
    cases hnx : nextPrimaryGuard heap used remaining acc rands with
    | error e => rw [hnx] at h; simp at h
    | ok trip =>
      obtain ⟨g, used1, rands2⟩ := trip
      rw [hnx] at h
      obtain ⟨qs1, k1, hps, hnd, hup, hrem⟩ := ih used1 (acc ++ [g]) rands2 ps r1 h
      rcases nextPrimaryGuard_cases heap used remaining acc rands g used1 rands2 hnx with
        ⟨hgu, hgb, hga, hsub⟩ | ⟨hgr, hu1⟩
      · refine ⟨g :: qs1, k1 + 1, by simpa [List.append_assoc] using hps, ?_, ?_, ?_⟩
        · rw [List.take_succ_cons, List.nodup_cons]
          refine ⟨?_, hnd⟩
          intro hmem
          obtain ⟨_, _, hnotin⟩ := hup g hmem
          exact hnotin (by simp)
        · intro x hx
          rw [List.take_succ_cons] at hx
          rcases List.mem_cons.mp hx with hxg | hx2
          · subst hxg
            exact ⟨hgu, hgb, hga⟩
          · obtain ⟨hxu, hxb, hxa⟩ := hup x hx2
            exact ⟨hsub x hxu, hxb, fun hc => hxa (List.mem_append_left _ hc)⟩
        · intro x hx
          rw [List.drop_succ_cons] at hx
          exact hrem x hx
      · refine ⟨g :: qs1, 0, by simpa [List.append_assoc] using hps, by simp, by simp, ?_⟩
        intro x hx
        rw [List.drop_zero] at hx
        rcases List.mem_cons.mp hx with hxg | hx2
        · subst hxg
          exact hgr
        · have hx3 : x ∈ qs1.take k1 ++ qs1.drop k1 := by
            rw [List.take_append_drop]
            exact hx2
          rcases List.mem_append.mp hx3 with hxt | hxd
          · obtain ⟨hxu, _, _⟩ := hup x hxt
            rw [hu1] at hxu
            exact absurd hxu (List.not_mem_nil x)
          · exact hrem x hxd

/-- C4: whenever the used-guards input holds at least nPrimaryGuards
distinct non-bad guards, start succeeds and the constructed primaryGuards
list is exactly the first nPrimaryGuards non-bad guards of usedGuards in
their original order (each distinct guard counted at its first occurrence);
when usedGuards is duplicate-free this is literally the first nPrimaryGuards
entries of the non-bad sublist.  The in-consensus part of the claim
hypothesis is not needed: the code checks only the bad flag, so this
statement is stronger than the claim. -/
theorem c4_used_preference (params : ClientParams) (heap : Heap) (now : ℤ)
    (rands : List Nat) (used excl : List GuardId) (n : Nat) (cons dysCons : List GuardId)
    (hn : n ≤ (dedupFrom [] (usedNonBad heap used)).length) :
    ∃ st, start params heap now rands used excl n cons dysCons = .ok st ∧
      st.primaryGuards = (dedupFrom [] (usedNonBad heap used)).take n ∧
      (used.Nodup → st.primaryGuards = (usedNonBad heap used).take n) := by
  have hfp : findPrimaryGuards heap used
      ((filterGuards cons excl).filter (fun g => decide (g ∉ used))) n rands =
      .ok ((dedupFrom [] (usedNonBad heap used)).take n, rands) := by
    unfold findPrimaryGuards
    have h2 := findPrimaryGuardsAux_usedPhase heap
      ((filterGuards cons excl).filter (fun g => decide (g ∉ used))) n used [] rands hn
    simpa using h2
  simp only [start]
  rw [hfp]
  refine ⟨_, rfl, rfl, ?_⟩
  intro hnd
  show (dedupFrom [] (usedNonBad heap used)).take n = (usedNonBad heap used).take n
  rw [dedupFrom_of_nodup (usedNonBad heap used) [] (List.Nodup.filter _ hnd)
    (fun x _ => List.not_mem_nil x)]

/-- C4 witness: with four fresh used guards and three slots, the primaries
are the first three used guards in order, and since the used list has no
duplicates they are exactly its first three non-bad entries. -/
theorem c4_witness :
    3 ≤ (dedupFrom [] (usedNonBad heapPlain [1, 2, 3, 4])).length ∧
    (dedupFrom [] (usedNonBad heapPlain [1, 2, 3, 4])).take 3 = [1, 2, 3] ∧
    ∃ st, start defaultClientParams heapPlain 0 [] [1, 2, 3, 4] [] 3 [9] [] = .ok st ∧
      st.primaryGuards = (dedupFrom [] (usedNonBad heapPlain [1, 2, 3, 4])).take 3 ∧
      (([1, 2, 3, 4] : List GuardId).Nodup →
        st.primaryGuards = (usedNonBad heapPlain [1, 2, 3, 4]).take 3) :=
  ⟨by decide, by decide,
   c4_used_preference defaultClientParams heapPlain 0 [] [1, 2, 3, 4] [] 3 [9] [] (by decide)⟩

/-- C3 amended: after a successful start, primaryGuards has length at most
nPrimaryGuards and splits into a prefix drawn from usedGuards — free of
duplicates and of bad guards — followed by guards drawn from the
remainingUtopic set of the session, for which the bad and duplicate checks
are skipped (the counterexample shows both can occur there). -/
theorem c3_amended_split (params : ClientParams) (heap : Heap) (now : ℤ)
    (rands : List Nat) (used excl : List GuardId) (n : Nat) (cons dysCons : List GuardId)
    (st : AlgoState)
    (h : start params heap now rands used excl n cons dysCons = .ok st) :
    st.primaryGuards.length ≤ n ∧
    ∃ k, (st.primaryGuards.take k).Nodup ∧
      (∀ g ∈ st.primaryGuards.take k, g ∈ used ∧ (heap g).bad = false) ∧
      (∀ g ∈ st.primaryGuards.drop k, g ∈ st.remainingUtopicGuards) := by
  simp only [start] at h
  cases hfp : findPrimaryGuards heap used
      ((filterGuards cons excl).filter (fun g => decide (g ∉ used))) n rands with
  | error e =>
    rw [hfp] at h
    simp at h
  | ok pr =>
    obtain ⟨primary, rands1⟩ := pr
    rw [hfp] at h
    have hst : ({ params := params, guards := heap, now := now,
                  usedGuards := used, primaryGuards := primary,
                  utopicGuards := filterGuards cons excl,
                  dystopicGuards := filterGuards dysCons excl,
                  remainingUtopicGuards :=
                    (filterGuards cons excl).filter (fun g => decide (g ∉ used)),
                  remainingDystopicGuards :=
                    (filterGuards dysCons excl).filter (fun g => decide (g ∉ used)),
                  triedGuards := [], triedDystopicGuards := [],
                  state := .primaryGuards, previousState := none, lastReturn := none,
                  hasFinished := false, dysTurn := -1, dysRemaining := [], retryTurn := -1,
                  rands := rands1 } : AlgoState) = st := by
      simpa using h
    subst hst
    unfold findPrimaryGuards at hfp
    have hlen := findPrimaryGuardsAux_length heap
      ((filterGuards cons excl).filter (fun g => decide (g ∉ used))) n used [] rands
      primary rands1 hfp
    obtain ⟨qs, k, hps, hnd, hup, hrem⟩ := findPrimaryGuardsAux_split heap
      ((filterGuards cons excl).filter (fun g => decide (g ∉ used))) n used [] rands
      primary rands1 hfp
    have hqs : primary = qs := by simpa using hps
    subst hqs
    refine ⟨by simpa using Nat.le_of_eq hlen, k, hnd, ?_, hrem⟩
    intro g hg
    obtain ⟨h1, h2, _⟩ := hup g hg
    exact ⟨h1, h2⟩

/-- C3 counterexample: a start call whose used list is empty and whose
consensus holds only the bad guard 7, asked for two primaries, builds
primaryGuards = [7, 7] — a duplicated, bad guard — refuting the claimed
invariant for candidates drawn from remainingUtopic. -/
theorem c3_counterexample :
    startedPrimaries startBadRemaining = some [7, 7] ∧
    (heapBad7 7).bad = true ∧
    ¬ ([7, 7] : List GuardId).Nodup :=
  ⟨rfl, rfl, by decide⟩

/-- C3 witness: concrete application of c3_amended_split to a start call
with one used guard and one remaining consensus guard. -/
theorem c3_witness :
    ∃ st, startMixed = .ok st ∧
      (st.primaryGuards.length ≤ 2 ∧
       ∃ k, (st.primaryGuards.take k).Nodup ∧
         (∀ g ∈ st.primaryGuards.take k, g ∈ [5] ∧ (heapPlain g).bad = false) ∧
         (∀ g ∈ st.primaryGuards.drop k, g ∈ st.remainingUtopicGuards)) := by
  cases hE : startMixed with
  | error e =>
    have hP : startedPrimaries startMixed = some [5, 9] := rfl
    rw [hE] at hP
    simp [startedPrimaries] at hP
  | ok st =>
    exact ⟨st, rfl, c3_amended_split defaultClientParams heapPlain 0 [] [5] [] 2 [9] [] st hE⟩

end TorGuardSim
